import Mathlib

/-!
Verification of the DA-AppointmentBooking core against its natural-language
specification.  The Python modules under `backend/core/` are shallowly
embedded: pure functions become Lean functions, the database session becomes
an explicit record of row lists, machine integers become `Nat`/`Int`, and
code that raises becomes `Except`.  Dates are modelled as proleptic ordinal
day numbers (`Nat`), with `weekday d = d % 7` and the convention
0 = Monday … 6 = Sunday, matching Python's `date.weekday()` up to choice of
epoch.  Clock times are modelled as minutes since midnight; the source
formats them as zero-padded "HH:MM" strings, whose lexicographic order
agrees with the numeric order used here.
-/

namespace DA

/-! ## Grid constants (backend/config.py) -/

def DAY_START_HOUR : Nat := 9
def DAY_END_HOUR : Nat := 17
def SLOT_MINUTES : Nat := 15
def SLOTS_PER_DAY : Nat := (DAY_END_HOUR - DAY_START_HOUR) * (60 / SLOT_MINUTES)
def BUFFER_SLOTS : Nat := 1
def SCHEDULE_LOOKAHEAD_DAYS : Nat := 14

/-- Python `date.weekday()`: 0 = Monday … 6 = Sunday (epoch chosen so that
day number 0 is a Monday). -/
def weekday (d : Nat) : Nat := d % 7

/-! ## Contiguity finder (scheduling_engine._find_contiguous) -/

/-- Loop body of `_find_contiguous`: `i` is the index of the head of the
remaining mask, `run` the length of the run of `True` entries ending just
before index `i`. -/
def findContiguousGo (length : Nat) : Nat → Nat → List Bool → List Nat
  | _, _, [] => []
  | i, run, b :: rest =>
    if b then
      (if run + 1 ≥ length then [i + 1 - length] else [])
        ++ findContiguousGo length (i + 1) (run + 1) rest
    else
      findContiguousGo length (i + 1) 0 rest

/-- `_find_contiguous(mask, length)`: all starting positions with `length`
contiguous `True` values, via a single forward pass maintaining the run
length. -/
def findContiguous (mask : List Bool) (length : Nat) : List Nat :=
  findContiguousGo length 0 0 mask

/-- The specification-side predicate: `s` is a valid start, i.e. the `k`
entries `mask[s..s+k-1]` all exist and are `true`. -/
def validStart (mask : List Bool) (k s : Nat) : Prop :=
  s + k ≤ mask.length ∧ ∀ j < k, mask.getD (s + j) false = true

instance (mask : List Bool) (k s : Nat) : Decidable (validStart mask k s) := by
  unfold validStart; infer_instance

/-! ## Clinical data model (core/intent_analyzer.py dataclasses) -/

structure ClinicalIssue where
  symptom_cluster : String := ""
  urgency : String := "LOW"
  reasoning : String := ""
  has_pain : Bool := false
  severity : Option Int := none
  duration_days : Option Int := none
  thermal_sensitivity : Bool := false
  biting_pain : Bool := false
  swelling : Bool := false
  visible_swelling : Bool := false
  airway_compromise : Bool := false
  trauma : Bool := false
  bleeding : Bool := false
  impacted_wisdom : Bool := false
  requires_sedation : Bool := false
  location : Option String := none
  reported_symptoms : List String := []
  clinical_profile : List (String × Bool) := []
  missing_clinical_elements : List String := []
  field_answers : List (String × String) := []
  deriving Repr, DecidableEq

structure IntentResult where
  issues : List ClinicalIssue := []
  overall_urgency : Option String := none
  requires_clarification : Bool := false
  clarification_questions : List String := []
  safety_flag : Bool := false
  action_type : String := "UNKNOWN"
  patient_sentiment : String := "Neutral"
  completion_status : String := "INCOMPLETE"
  deriving Repr, DecidableEq

/-- Substring test on strings (Python `sub in s`). -/
def strContains (s pat : String) : Bool :=
  (List.range (s.toList.length + 1)).any
    (fun i => pat.toList.isPrefixOf (s.toList.drop i))

/-- `str.lower()` (ASCII case folding suffices for the literals used). -/
def strLower (s : String) : String := String.map Char.toLower s

/-! ## Classifier (orchestration_engine._classify_condition) -/

/-- `_classify_condition`: deterministically maps the structured clinical
feature flags of a `ClinicalIssue` to a condition key plus the reasoning
triggers, applying the five tiers in source order. -/
def classifyCondition (issue : ClinicalIssue) : String × List String :=
  -- Tier 1: emergency rules
  let t1 : List String :=
    (if issue.airway_compromise then ["Airway compromise"] else [])
      ++ (if issue.trauma then ["Dental trauma"] else [])
      ++ (if issue.bleeding then ["Uncontrolled bleeding"] else [])
  if t1 ≠ [] then ("emergency", t1) else
  -- Tier 2: endodontic rules (`issue.severity or 0`)
  let isSevere : Bool := issue.severity.getD 0 ≥ 7
  let t2 : List String :=
    (if isSevere then ["Severe pain"] else [])
      ++ (if issue.thermal_sensitivity then ["Thermal sensitivity"] else [])
      ++ (if issue.biting_pain then ["Biting pain"] else [])
  if issue.has_pain && (isSevere && (issue.thermal_sensitivity || issue.biting_pain)
      && !issue.swelling) then ("root_canal", t2) else
  -- Tier 3: surgical rules (triggers reset)
  let cluster := strLower issue.symptom_cluster
  let wisdomKw := strContains cluster "wisdom"
  let t3 : List String :=
    (if issue.swelling then ["Swelling"] else [])
      ++ (if issue.impacted_wisdom then ["Impacted wisdom"] else [])
      ++ (if wisdomKw then ["Wisdom tooth cluster"] else [])
  if issue.swelling && (issue.impacted_wisdom || wisdomKw) then
    ("wisdom_extraction", t3) else
  if issue.swelling && strContains cluster "extraction" then
    ("wisdom_extraction", t3 ++ ["Extraction mentioned"]) else
  -- Tier 4: restorative rules (triggers reset)
  let t4 : List String :=
    (if issue.has_pain then ["Pain"] else [])
      ++ (if issue.severity.getD 0 ≤ 6 then ["Moderate severity"] else [])
  if issue.has_pain && (issue.severity.getD 0 ≤ 6 && (!issue.swelling
      && !issue.thermal_sensitivity)) then ("filling", t4) else
  -- Tier 5: keyword fallback, then default
  if strContains cluster "root canal" then ("root_canal", ["Root canal keyword"]) else
  if strContains cluster "wisdom" then ("wisdom_extraction", ["Wisdom tooth keyword"]) else
  if strContains cluster "crown" then ("crown", ["Crown keyword"]) else
  if strContains cluster "filling" then ("filling", ["Filling keyword"]) else
  if strContains cluster "clean" then ("general_checkup", ["Cleaning/Hygiene keyword"]) else
  ("general_checkup", ["Routine follow-up"])

/-! ## State merge (intent_analyzer._merge_with_previous_issues) -/

/-- Python truthiness of an optional string (`None` and `""` are falsy). -/
def strTruthy : Option String → Bool
  | none => false
  | some s => !(s == "")

/-- Python `{**old, **new}`: keys of `old` keep their position with values
overridden by `new`; keys only in `new` are appended in `new`'s order. -/
def mergeMaps (old new : List (String × String)) : List (String × String) :=
  old.map (fun p => (p.1, (new.lookup p.1).getD p.2))
    ++ new.filter (fun p => !(old.any (fun q => q.1 == p.1)))

/-- The list-append loop on `reported_symptoms`: append each old symptom not
already present (checking against the growing list). -/
def appendSymptoms (base old : List String) : List String :=
  old.foldl (fun acc s => if s ∈ acc then acc else acc ++ [s]) base

/-- The body of `_merge_with_previous_issues` for the 1:1 case: mutates the
new issue field by field exactly as the source does. -/
def mergeIssuePair (n o : ClinicalIssue) : ClinicalIssue :=
  { n with
    has_pain := if o.has_pain && !n.has_pain then true else n.has_pain
    swelling := if o.swelling && !n.swelling then true else n.swelling
    bleeding := if o.bleeding && !n.bleeding then true else n.bleeding
    trauma := if o.trauma && !n.trauma then true else n.trauma
    severity := if o.severity.isSome && n.severity.isNone then o.severity else n.severity
    duration_days :=
      if o.duration_days.isSome && n.duration_days.isNone then o.duration_days
      else n.duration_days
    location := if strTruthy o.location && !(strTruthy n.location) then o.location else n.location
    field_answers :=
      if !o.field_answers.isEmpty then mergeMaps o.field_answers n.field_answers
      else n.field_answers
    reported_symptoms := appendSymptoms n.reported_symptoms o.reported_symptoms }

/-- `_merge_with_previous_issues`: merges only in the 1:1 case, otherwise
returns the new analysis unchanged. -/
def mergeWithPreviousIssues (newIssues oldIssues : List ClinicalIssue) :
    List ClinicalIssue :=
  if oldIssues.isEmpty then newIssues
  else
    match newIssues, oldIssues with
    | [n], [o] => [mergeIssuePair n o]
    | _, _ => newIssues

/-! ## Deterministic action gate (intent_analyzer.analyze_intent, Tier 4)

`core.clinical_gate` is imported by the source but its module is not part of
the sources given here; its two entry points are passed as explicit function
parameters (`assess` models the in-place `assess_issue_completeness`,
`nextQ` models `get_next_clinical_question`), so every theorem below holds
for every implementation of the gate. -/

/-- Count of truthy values in `clinical_profile`
(`sum(1 for k, v in issue.clinical_profile.items() if v)`). -/
def structuredCount (i : ClinicalIssue) : Nat :=
  (i.clinical_profile.filter (fun p => p.2)).length

/-- `_backend_completion_check`: run the gate assessment, then require at
least 3 structured elements and no missing elements.  Returns the assessed
(mutated) issue together with the boolean verdict. -/
def backendCompletionCheck (assess : ClinicalIssue → ClinicalIssue)
    (issue : ClinicalIssue) : ClinicalIssue × Bool :=
  let i := assess issue
  (i, if structuredCount i < 3 then false else i.missing_clinical_elements.isEmpty)

/-- Short-circuiting `all(_backend_completion_check(issue) for issue in issues)`:
issues after the first failing one are not assessed. -/
def checkAllIssues (assess : ClinicalIssue → ClinicalIssue) :
    List ClinicalIssue → List ClinicalIssue × Bool
  | [] => ([], true)
  | i :: rest =>
    let r := backendCompletionCheck assess i
    if r.2 then
      let rec' := checkAllIssues assess rest
      (r.1 :: rec'.1, rec'.2)
    else (r.1 :: rest, false)

/-- `_answered_field_keys`: normalized keys of non-empty field answers. -/
def answeredFieldKeys (i : ClinicalIssue) : List String :=
  (i.field_answers.filter (fun p => !(p.2 == ""))).map (fun p => p.1.trim.toLower)

/-- Per-issue step of `_deterministic_questions`: assess, prune answered
elements, and pick the next question when elements are still missing. -/
def detQuestionStep (assess : ClinicalIssue → ClinicalIssue)
    (nextQ : ClinicalIssue → Option String) (issue : ClinicalIssue) :
    ClinicalIssue × Option String :=
  let i := assess issue
  let answered := answeredFieldKeys i
  let i :=
    if i.missing_clinical_elements.isEmpty then i
    else { i with missing_clinical_elements :=
        i.missing_clinical_elements.filter (fun k => !(answered.contains k.trim.toLower)) }
  (i, if i.missing_clinical_elements.isEmpty then none else nextQ i)

/-- `_deterministic_questions`: the loop over issues, deduplicating the
emitted (truthy) questions via the `seen` set. -/
def detQuestionsGo (assess : ClinicalIssue → ClinicalIssue)
    (nextQ : ClinicalIssue → Option String) :
    List ClinicalIssue → List String → List ClinicalIssue × List String
  | [], _ => ([], [])
  | issue :: rest, seen =>
    let r := detQuestionStep assess nextQ issue
    let keep : List String :=
      match r.2 with
      | some q => if !(q == "") && !(seen.contains q) then [q] else []
      | none => []
    let rec' := detQuestionsGo assess nextQ rest (seen ++ keep)
    (r.1 :: rec'.1, keep ++ rec'.2)

/-- The Tier-4 deterministic action gate of `analyze_intent`
(lines 475–502): escalation on confirmed danger, else ROUTE when the
non-empty issue list passes the backend completion check, else CLARIFY. -/
def actionGate (assess : ClinicalIssue → ClinicalIssue)
    (nextQ : ClinicalIssue → Option String) (intent : IntentResult) : IntentResult :=
  if intent.issues.any (fun i => i.airway_compromise || i.bleeding) then
    { intent with
      action_type := "ESCALATE"
      safety_flag := true
      overall_urgency := some "EMERGENCY"
      completion_status := "INCOMPLETE"
      requires_clarification := false
      clarification_questions := [] }
  else
    let checked :=
      if intent.issues.isEmpty then (intent.issues, false)
      else checkAllIssues assess intent.issues
    if checked.2 then
      { intent with
        issues := checked.1
        action_type := "ROUTE"
        completion_status := "COMPLETE"
        requires_clarification := false
        clarification_questions := [] }
    else
      let qs := detQuestionsGo assess nextQ checked.1 []
      { intent with
        issues := qs.1
        action_type := "CLARIFY"
        completion_status := "INCOMPLETE"
        requires_clarification := true
        safety_flag := false
        clarification_questions := qs.2 }

/-! ## Persistence model (backend/models/models.py rows as record lists)

Row identifiers (UUIDs / serial keys in the source) are modelled as `Nat`.
List order of each table stands for the database's result order. -/

structure Doctor where
  doctor_id : Nat
  tenant_id : Nat
  name : String := ""
  active : Bool := true
  deriving Repr, DecidableEq

structure DoctorSpecRow where
  doctor_id : Nat
  spec_id : Nat
  deriving Repr, DecidableEq

structure Room where
  room_id : Nat
  clinic_id : Nat
  name : String := ""
  status : String := "active"
  capabilities : List (String × Int) := []
  deriving Repr, DecidableEq

structure StaffRow where
  staff_id : Nat
  tenant_id : Nat
  role : String
  name : String := ""
  deriving Repr, DecidableEq

structure Specialization where
  spec_id : Nat
  tenant_id : Nat
  name : String
  deriving Repr, DecidableEq

structure AvailabilityTemplate where
  resource_id : Nat
  resource_type : String
  clinic_id : Nat
  day_of_week : Nat
  start_hour : Nat
  start_minute : Nat := 0
  end_hour : Nat
  end_minute : Nat := 0
  deriving Repr, DecidableEq

structure CalendarSlot where
  tenant_id : Option Nat := none
  entity_type : String
  entity_id : Nat
  date : Nat
  time_block : Nat
  booked : Bool
  appt_id : Option Nat := none
  deriving Repr, DecidableEq

structure Appointment where
  appt_id : Nat
  patient_id : Nat
  doctor_id : Nat
  room_id : Nat
  staff_id : Option Nat := none
  clinic_id : Nat
  proc_id : Option Nat := none
  procedure_type : String := ""
  date : Nat
  start_min : Nat
  end_min : Nat
  status : String
  deriving Repr, DecidableEq

structure Procedure where
  proc_id : Nat
  tenant_id : Nat
  name : String
  base_duration_minutes : Nat
  consult_duration_minutes : Nat
  required_spec_id : Nat
  required_room_capability : List (String × Int) := []
  requires_anesthetist : Bool := false
  allow_same_day_combo : Bool := false
  deriving Repr, DecidableEq

structure DB where
  doctors : List Doctor := []
  doctor_specs : List DoctorSpecRow := []
  rooms : List Room := []
  staff : List StaffRow := []
  specs : List Specialization := []
  templates : List AvailabilityTemplate := []
  calendar_slots : List CalendarSlot := []
  appointments : List Appointment := []
  deriving Repr, DecidableEq

/-! ## Scheduling engine (core/scheduling_engine.py) -/

/-- `_blocks_needed`: round minutes up to the nearest 15-minute block. -/
def blocksNeeded (minutes : Nat) : Nat :=
  (minutes + SLOT_MINUTES - 1) / SLOT_MINUTES

/-- `_block_to_time` as minutes since midnight (the source formats the same
value as "HH:MM"). -/
def blockToTimeMin (block : Nat) : Nat :=
  DAY_START_HOUR * 60 + block * SLOT_MINUTES

/-- Template start block before clamping:
`(start.hour − DAY_START_HOUR)·(60/SLOT_MINUTES) + start.minute // SLOT_MINUTES`. -/
def templateStartBlock (t : AvailabilityTemplate) : Int :=
  ((t.start_hour : Int) - DAY_START_HOUR) * ((60 : Int) / SLOT_MINUTES)
    + (t.start_minute / SLOT_MINUTES : Nat)

/-- Template end block before clamping: `(end.hour − DAY_START_HOUR)·(60/SLOT_MINUTES)`
(the end minute is ignored by the source). -/
def templateEndBlock (t : AvailabilityTemplate) : Int :=
  ((t.end_hour : Int) - DAY_START_HOUR) * ((60 : Int) / SLOT_MINUTES)

/-- A booked CalendarSlot row exists for this entity/date/block. -/
def bookedAt (db : DB) (etype : String) (eid : Nat) (d b : Nat) : Bool :=
  db.calendar_slots.any (fun s =>
    s.entity_type == etype && s.entity_id == eid && s.date == d
      && s.time_block == b && s.booked)

/-- `_get_availability_mask`: template union (with `max 0` / `min SLOTS_PER_DAY`
clamping, which for indices in `[0, SLOTS_PER_DAY)` is the plain range test)
minus booked blocks. -/
def availabilityMask (db : DB) (etype : String) (eid : Nat) (target : Nat)
    (templates : List AvailabilityTemplate) : List Bool :=
  (List.range SLOTS_PER_DAY).map (fun b =>
    (templates.any (fun t =>
        t.day_of_week == weekday target
          && decide (templateStartBlock t ≤ Int.ofNat b)
          && decide (Int.ofNat b < templateEndBlock t)))
      && !(bookedAt db etype eid target b))

structure SlotOption where
  type : String
  date : Nat
  time : Nat
  end_time : Nat
  time_block : Nat
  duration_minutes : Nat
  doctor_id : Nat
  doctor_name : String
  room_id : Nat
  room_name : String
  clinic_id : Nat
  staff_id : Option Nat := none
  staff_name : Option String := none
  procedure : String := ""
  consult_end_time : Option Nat := none
  treatment_start_time : Option Nat := none
  score : ℚ := 0
  deriving Repr, DecidableEq

/-- Tenant filter used by several queries (`if tenant_id: … .filter(…)`). -/
def tenantMatch (tenant : Option Nat) (x : Nat) : Bool :=
  match tenant with
  | some t => x == t
  | none => true

/-- Candidate doctors: active, joined to the required specialization,
tenant-scoped. -/
def candidateDoctors (db : DB) (proc : Procedure) (tenant : Option Nat) : List Doctor :=
  db.doctors.filter (fun d =>
    db.doctor_specs.any (fun ds =>
        ds.doctor_id == d.doctor_id && ds.spec_id == proc.required_spec_id)
      && d.active && tenantMatch tenant d.tenant_id)

/-- Active rooms, tenant-scoped (`Room.clinic_id == tenant_id`). -/
def activeRooms (db : DB) (tenant : Option Nat) : List Room :=
  db.rooms.filter (fun r => r.status == "active" && tenantMatch tenant r.clinic_id)

/-- Room capability subset test (`r.capabilities.get(k) == v` for every
required pair). -/
def capMatch (r : Room) (required : List (String × Int)) : Bool :=
  required.all (fun kv => r.capabilities.lookup kv.1 == some kv.2)

/-- First tenant-matching staff member with role `Anesthetist`. -/
def tenantAnesthetist (db : DB) (tenant : Option Nat) : Option StaffRow :=
  (db.staff.filter (fun s =>
    s.role == "Anesthetist" && tenantMatch tenant s.tenant_id)).head?

/-- Availability templates of a doctor. -/
def doctorTemplates (db : DB) (docId : Nat) : List AvailabilityTemplate :=
  db.templates.filter (fun t =>
    t.resource_id == docId && t.resource_type == "DOCTOR")

/-- Availability templates of a staff member. -/
def staffTemplates (db : DB) (staffId : Nat) : List AvailabilityTemplate :=
  db.templates.filter (fun t =>
    t.resource_id == staffId && t.resource_type == "STAFF")

/-- COMBO slot constructed by `find_slots`. -/
def mkComboSlot (proc : Procedure) (anesth : Option StaffRow) (target : Nat)
    (doc : Doctor) (room : Room) (clinic : Nat)
    (consultBlocks comboBlocks start : Nat) : SlotOption :=
  { type := "COMBO"
    date := target
    time := blockToTimeMin start
    end_time := blockToTimeMin (start + comboBlocks)
    time_block := start
    duration_minutes := comboBlocks * SLOT_MINUTES
    doctor_id := doc.doctor_id
    doctor_name := doc.name
    room_id := room.room_id
    room_name := room.name
    clinic_id := clinic
    staff_id := anesth.map (fun a => a.staff_id)
    staff_name := anesth.map (fun a => a.name)
    procedure := proc.name
    consult_end_time := some (blockToTimeMin (start + consultBlocks))
    treatment_start_time := some (blockToTimeMin (start + consultBlocks + BUFFER_SLOTS))
    score := 100 }

/-- CONSULT_ONLY / SINGLE slot constructed by `find_slots`. -/
def mkSingleSlot (proc : Procedure) (anesth : Option StaffRow) (target : Nat)
    (doc : Doctor) (room : Room) (clinic : Nat)
    (consultBlocks singleBlocks start : Nat) : SlotOption :=
  { type := if consultBlocks > 0 then "CONSULT_ONLY" else "SINGLE"
    date := target
    time := blockToTimeMin start
    end_time := blockToTimeMin (start + singleBlocks)
    time_block := start
    duration_minutes := singleBlocks * SLOT_MINUTES
    doctor_id := doc.doctor_id
    doctor_name := doc.name
    room_id := room.room_id
    room_name := room.name
    clinic_id := clinic
    staff_id := anesth.map (fun a => a.staff_id)
    staff_name := anesth.map (fun a => a.name)
    procedure := proc.name
    score := 50 }

/-- The combo-then-single emission for one (doctor, room) pair once the
combined availability mask is known. -/
def emitSlots (proc : Procedure) (anesth : Option StaffRow) (target : Nat)
    (doc : Doctor) (room : Room) (clinic : Nat)
    (consultBlocks comboBlocks singleBlocks : Nat) (comb : List Bool) :
    List SlotOption :=
  (if proc.allow_same_day_combo && consultBlocks > 0 then
    (findContiguous comb comboBlocks).map
      (mkComboSlot proc anesth target doc room clinic consultBlocks comboBlocks)
  else [])
    ++ (findContiguous comb singleBlocks).map
      (mkSingleSlot proc anesth target doc room clinic consultBlocks singleBlocks)

/-- Slots emitted for one (doctor, room) pair on one day at one clinic. -/
def slotsForRoom (db : DB) (proc : Procedure) (anesth : Option StaffRow)
    (target : Nat) (doc : Doctor) (clinic : Nat)
    (docMask : List Bool) (consultBlocks comboBlocks singleBlocks : Nat)
    (room : Room) : List SlotOption :=
  let roomMask := (List.range SLOTS_PER_DAY).map
    (fun b => !(bookedAt db "room" room.room_id target b))
  let combined := List.zipWith (fun a b => a && b) docMask roomMask
  let combinedWithAnesth : Option (List Bool) :=
    match anesth with
    | none => some combined
    | some an =>
      let anesthClinicTemplates :=
        (staffTemplates db an.staff_id).filter (fun t => t.clinic_id == clinic)
      if anesthClinicTemplates.isEmpty then none
      else some (List.zipWith (fun a b => a && b) combined
        (availabilityMask db "staff" an.staff_id target anesthClinicTemplates))
  match combinedWithAnesth with
  | none => []
  | some comb =>
    emitSlots proc anesth target doc room clinic consultBlocks comboBlocks
      singleBlocks comb

/-- Slots emitted for one doctor on one day. -/
def slotsForDoctor (db : DB) (proc : Procedure) (anesth : Option StaffRow)
    (candidateRooms : List Room) (target : Nat)
    (consultBlocks comboBlocks singleBlocks : Nat) (doc : Doctor) : List SlotOption :=
  let templates := doctorTemplates db doc.doctor_id
  if templates.isEmpty then []
  else
    let clinics := ((templates.filter (fun t => t.day_of_week == weekday target)).map
      (fun t => t.clinic_id)).eraseDups
    clinics.flatMap (fun clinic =>
      let localRooms := candidateRooms.filter (fun r => r.clinic_id == clinic)
      if localRooms.isEmpty then []
      else
        let clinicTemplates := templates.filter (fun t => t.clinic_id == clinic)
        let docMask := availabilityMask db "doctor" doc.doctor_id target clinicTemplates
        localRooms.flatMap
          (slotsForRoom db proc anesth target doc clinic docMask
            consultBlocks comboBlocks singleBlocks))

/-- `find_slots`: the main scheduling algorithm over the lookahead horizon.
`today` is `date.today()` as an ordinal day number. -/
def findSlots (db : DB) (proc : Procedure) (needs_sedation : Bool)
    (tenant : Option Nat) (today : Nat) : List SlotOption :=
  let treatmentBlocks := blocksNeeded proc.base_duration_minutes
  let consultBlocks :=
    if proc.consult_duration_minutes > 0 then blocksNeeded proc.consult_duration_minutes
    else 0
  let comboBlocks :=
    if consultBlocks > 0 then consultBlocks + BUFFER_SLOTS + treatmentBlocks
    else treatmentBlocks
  let singleBlocks := if consultBlocks > 0 then consultBlocks else treatmentBlocks
  let docs := candidateDoctors db proc tenant
  let candidateRooms :=
    (activeRooms db tenant).filter (fun r => capMatch r proc.required_room_capability)
  if needs_sedation || proc.requires_anesthetist then
    match tenantAnesthetist db tenant with
    | none => []
    | some an =>
      ((List.range SCHEDULE_LOOKAHEAD_DAYS).map (fun i => i + 1)).flatMap (fun off =>
        if weekday (today + off) ≥ 5 then []
        else docs.flatMap
          (slotsForDoctor db proc (some an) candidateRooms (today + off)
            consultBlocks comboBlocks singleBlocks))
  else
    ((List.range SCHEDULE_LOOKAHEAD_DAYS).map (fun i => i + 1)).flatMap (fun off =>
      if weekday (today + off) ≥ 5 then []
      else docs.flatMap
        (slotsForDoctor db proc none candidateRooms (today + off)
          consultBlocks comboBlocks singleBlocks))

/-! ## Optimizer (core/optimizer.py)

Scores are exact in the source (small multiples of 0.5 in IEEE doubles), so
they are modelled as rationals.  `slot.date` / `slot.time` are compared as
zero-padded ISO strings in the source; their lexicographic order coincides
with the numeric order of the ordinal-day / minutes encodings used here. -/

/-- The score assigned to one slot by `optimize_slots`. -/
def slotScore (preferred_clinic preferred_doctor : Option Nat) (today : Nat)
    (s : SlotOption) : ℚ :=
  (if s.type == "COMBO" then (100 : ℚ) else 0)
    + (match preferred_clinic with
       | some c => if s.clinic_id == c then (30 : ℚ) else 0
       | none => 0)
    + (match preferred_doctor with
       | some d => if s.doctor_id == d then (20 : ℚ) else 0
       | none => 0)
    + ((max 0 (20 - ((s.date : Int) - (today : Int))) : Int) : ℚ)
    + max 0 ((((17 : Int) - (s.time / 60 : Nat)) : ℚ) * (1 / 2))
    + (if s.type == "SINGLE" then (10 : ℚ) else 0)

/-- The sort key comparison `(−score, date asc, time asc)` as a boolean
total preorder (Python's stable `list.sort`). -/
def slotLe (a b : SlotOption) : Bool :=
  decide (b.score < a.score)
    || (decide (a.score = b.score)
      && (decide (a.date < b.date)
        || (decide (a.date = b.date) && decide (a.time ≤ b.time))))

/-- Deduplication key `(date, time, doctor_id, type)`. -/
def dedupKey (s : SlotOption) : Nat × Nat × Nat × String :=
  (s.date, s.time, s.doctor_id, s.type)

/-- The dedup-and-cap loop of `optimize_slots`: keep the first slot per key,
stop once 10 slots are kept. -/
def dedupTopGo : List SlotOption → List (Nat × Nat × Nat × String) → Nat →
    List SlotOption
  | [], _, _ => []
  | s :: rest, seen, count =>
    if dedupKey s ∈ seen then dedupTopGo rest seen count
    else if count + 1 ≥ 10 then [s]
    else s :: dedupTopGo rest (dedupKey s :: seen) (count + 1)

/-- `optimize_slots`: score every slot in place, stable-sort by
`(−score, date, time)`, deduplicate by `(date, time, doctor_id, type)`
keeping at most 10. -/
def optimizeSlots (slots : List SlotOption)
    (preferred_clinic preferred_doctor : Option Nat) (today : Nat) :
    List SlotOption :=
  let scored := slots.map (fun s =>
    { s with score := slotScore preferred_clinic preferred_doctor today s })
  dedupTopGo (scored.mergeSort slotLe) [] 0

/-! ## Emergency handler (core/emergency_handler.py) -/

structure EmergencySlot where
  type : String
  date : Nat
  time : Nat
  end_time : Nat
  time_block : Nat
  duration_minutes : Nat
  doctor_id : Nat
  doctor_name : String
  room_id : Nat
  room_name : String
  clinic_id : Nat
  procedure : String
  score : ℚ
  deriving Repr, DecidableEq

/-- First `Specialization` named "General Dentist" (tenant-scoped). -/
def gdSpec (db : DB) (tenant : Option Nat) : Option Specialization :=
  (db.specs.filter (fun s =>
    s.name == "General Dentist" && tenantMatch tenant s.tenant_id)).head?

/-- Active doctors holding the given specialization (tenant-scoped). -/
def gdDoctors (db : DB) (tenant : Option Nat) (specId : Nat) : List Doctor :=
  db.doctors.filter (fun d =>
    db.doctor_specs.any (fun ds => ds.doctor_id == d.doctor_id && ds.spec_id == specId)
      && d.active && tenantMatch tenant d.tenant_id)

/-- DOCTOR templates of a doctor for one weekday. -/
def docDayTemplates (db : DB) (docId dow : Nat) : List AvailabilityTemplate :=
  db.templates.filter (fun t =>
    t.resource_id == docId && t.resource_type == "DOCTOR" && t.day_of_week == dow)

/-- First active room of a clinic (`Room.query…first()`). -/
def firstActiveRoom (db : DB) (clinic : Nat) : Option Room :=
  (db.rooms.filter (fun r => r.clinic_id == clinic && r.status == "active")).head?

/-- `current_block = max(0, (now.hour − DAY_START_HOUR)·(60/SLOT_MINUTES)
+ now.minute // SLOT_MINUTES)`. -/
def currentBlock (now_hour now_minute : Nat) : Int :=
  max 0 (((now_hour : Int) - DAY_START_HOUR) * ((60 : Int) / SLOT_MINUTES)
    + (now_minute / SLOT_MINUTES : Nat))

/-- Start block of the emergency scan for one template (the template start
minute is ignored here, unlike in the scheduler's mask builder); on today the
scan starts after the current block. -/
def emergStartBlock (t : AvailabilityTemplate) (isToday : Bool)
    (now_hour now_minute : Nat) : Nat :=
  let sb : Int := max 0 (((t.start_hour : Int) - DAY_START_HOUR) * ((60 : Int) / SLOT_MINUTES))
  (if isToday then max sb (currentBlock now_hour now_minute + 1) else sb).toNat

/-- End block of the emergency scan for one template. -/
def emergEndBlock (t : AvailabilityTemplate) : Nat :=
  (min (SLOTS_PER_DAY : Int) (((t.end_hour : Int) - DAY_START_HOUR) * ((60 : Int) / SLOT_MINUTES))).toNat

/-- Doctor and room both unbooked at this block. -/
def emergFreeAt (db : DB) (docId roomId d b : Nat) : Bool :=
  !(bookedAt db "doctor" docId d b) && !(bookedAt db "room" roomId d b)

/-- The slot dictionary returned by `handle_emergency`. -/
def mkEmergencySlot (doc : Doctor) (room : Room) (clinic d b : Nat) : EmergencySlot :=
  { type := "EMERGENCY"
    date := d
    time := blockToTimeMin b
    end_time := blockToTimeMin (b + 1)
    time_block := b
    duration_minutes := 15
    doctor_id := doc.doctor_id
    doctor_name := doc.name
    room_id := room.room_id
    room_name := room.name
    clinic_id := clinic
    procedure := "Emergency Triage"
    score := 1000 }

/-- Scan of one template of one doctor on one day. -/
def emergScanTemplate (db : DB) (doc : Doctor) (checkDate : Nat) (isToday : Bool)
    (now_hour now_minute : Nat) (t : AvailabilityTemplate) : Option EmergencySlot :=
  match firstActiveRoom db t.clinic_id with
  | none => none
  | some room =>
    let sb := emergStartBlock t isToday now_hour now_minute
    let eb := emergEndBlock t
    (List.range' sb (eb - sb)).findSome? (fun b =>
      if emergFreeAt db doc.doctor_id room.room_id checkDate b then
        some (mkEmergencySlot doc room t.clinic_id checkDate b)
      else none)

/-- Scan of one day: doctors in row order, then each doctor's templates for
that weekday in row order. -/
def emergScanDay (db : DB) (docs : List Doctor) (today : Nat)
    (now_hour now_minute : Nat) (off : Nat) : Option EmergencySlot :=
  let checkDate := today + off
  docs.findSome? (fun doc =>
    (docDayTemplates db doc.doctor_id (weekday checkDate)).findSome?
      (emergScanTemplate db doc checkDate (off == 0) now_hour now_minute))

/-- `handle_emergency`: today plus the next 3 days, day-major then
doctor-major then template-major scan, first free block wins. -/
def handleEmergency (db : DB) (tenant : Option Nat)
    (today now_hour now_minute : Nat) : Option EmergencySlot :=
  match gdSpec db tenant with
  | none => none
  | some spec =>
    let docs := gdDoctors db tenant spec.spec_id
    if docs.isEmpty then none
    else (List.range 4).findSome? (emergScanDay db docs today now_hour now_minute)

/-! ## Booking service (scheduling_engine.book_appointment)

The slot dictionary passed by callers is modelled as a record.  `Except`
models the raise of `SlotUnavailableError`: the error branch carries the
session state at raise time (the appointment has been flushed, no
CalendarSlot has been written; the surrounding transaction is rolled back by
the caller). -/

structure BookSlot where
  date : Nat
  time : Nat
  end_time : Option Nat := none
  time_block : Nat
  duration_minutes : Nat
  doctor_id : Nat
  doctor_name : String := ""
  room_id : Nat
  room_name : String := ""
  clinic_id : Nat
  staff_id : Option Nat := none
  procedure : String := ""
  deriving Repr, DecidableEq

/-- The entity list locked by `book_appointment`: doctor, room, and the
staff member when present. -/
def bookEntities (slot : BookSlot) : List (String × Nat) :=
  [("doctor", slot.doctor_id), ("room", slot.room_id)]
    ++ (match slot.staff_id with
        | some s => [("staff", s)]
        | none => [])

/-- A booked row for `e` on `date` with block in `[startBlock, startBlock+num)`. -/
def conflictRow (slots : List CalendarSlot) (e : String × Nat)
    (d startBlock num : Nat) : Bool :=
  slots.any (fun s =>
    s.entity_type == e.1 && s.entity_id == e.2 && s.date == d
      && decide (startBlock ≤ s.time_block) && decide (s.time_block < startBlock + num)
      && s.booked)

/-- Replace the first element satisfying `p` by `f` of it (`query…first()`
followed by attribute assignment). -/
def updateFirst (p : CalendarSlot → Bool) (f : CalendarSlot → CalendarSlot) :
    List CalendarSlot → Option (List CalendarSlot)
  | [] => none
  | s :: rest =>
    if p s then some (f s :: rest)
    else (updateFirst p f rest).map (fun l => s :: l)

/-- UPSERT of one CalendarSlot: update the first existing row for the key,
else insert a new booked row. -/
def upsertSlot (cs : List CalendarSlot) (tenant : Option Nat)
    (etype : String) (eid d b apptId : Nat) : List CalendarSlot :=
  match updateFirst
      (fun s => s.entity_type == etype && s.entity_id == eid
        && s.date == d && s.time_block == b)
      (fun s =>
        { s with
          booked := true
          appt_id := some apptId
          tenant_id := match tenant with
            | some t => some t
            | none => s.tenant_id }) cs with
  | some cs' => cs'
  | none =>
    cs ++ [{ tenant_id := tenant, entity_type := etype, entity_id := eid,
             date := d, time_block := b, booked := true, appt_id := some apptId }]

/-- `book_appointment`: flush the SCHEDULED appointment, pre-validate every
entity/block pair, then upsert the booked CalendarSlots.  `newApptId` is the
primary key assigned by the database at flush time. -/
def bookAppointment (db : DB) (slot : BookSlot) (patient_id : Nat)
    (proc_id : Option Nat) (tenant : Option Nat) (newApptId : Nat) :
    Except (String × DB) DB :=
  let startBlock := slot.time_block
  let numBlocks := blocksNeeded slot.duration_minutes
  let startMin := slot.time
  let endMin :=
    match slot.end_time with
    | some e => e
    | none => startMin + slot.duration_minutes
  let clinic :=
    match tenant with
    | some t => t
    | none => slot.clinic_id
  let appt : Appointment :=
    { appt_id := newApptId
      patient_id := patient_id
      doctor_id := slot.doctor_id
      room_id := slot.room_id
      staff_id := slot.staff_id
      clinic_id := clinic
      proc_id := proc_id
      procedure_type := slot.procedure
      date := slot.date
      start_min := startMin
      end_min := endMin
      status := "SCHEDULED" }
  let db1 : DB := { db with appointments := db.appointments ++ [appt] }
  let entities := bookEntities slot
  if entities.any (fun e => conflictRow db1.calendar_slots e slot.date startBlock numBlocks) then
    Except.error ("SlotUnavailable", db1)
  else
    Except.ok { db1 with
      calendar_slots := entities.foldl (fun cs e =>
        (List.range' startBlock numBlocks).foldl
          (fun cs b => upsertSlot cs tenant e.1 e.2 slot.date b newApptId) cs)
        db1.calendar_slots }

/-- Specification-side predicate: a calendar row locking `(etype, eid, d, b)`
for appointment `apptId`. -/
def bookedRow (etype : String) (eid d b apptId : Nat) (s : CalendarSlot) : Prop :=
  s.entity_type = etype ∧ s.entity_id = eid ∧ s.date = d ∧ s.time_block = b ∧
    s.booked = true ∧ s.appt_id = some apptId

/-! ## Concrete fixtures used by witnesses and counterexamples -/

/-- A minimal procedure requiring specialization 1, no consult phase. -/
def witnessProc : Procedure :=
  { proc_id := 1
    tenant_id := 1
    name := "P"
    base_duration_minutes := 30
    consult_duration_minutes := 0
    required_spec_id := 1 }

/-- One active General Dentist (doctor 1) at clinic 1 with one active room;
the doctor's only template is for weekday 5 (Saturday), 09:00–17:00. -/
def weekendEmergDB : DB :=
  { doctors := [{ doctor_id := 1, tenant_id := 1 }]
    doctor_specs := [{ doctor_id := 1, spec_id := 1 }]
    rooms := [{ room_id := 1, clinic_id := 1 }]
    specs := [{ spec_id := 1, tenant_id := 1, name := "General Dentist" }]
    templates := [{ resource_id := 1
                    resource_type := "DOCTOR"
                    clinic_id := 1
                    day_of_week := 5
                    start_hour := 9
                    end_hour := 17 }] }

/-- One active doctor with specialization 1 at clinic 1, working Mondays. -/
def mondaySchedDB : DB :=
  { doctors := [{ doctor_id := 1, tenant_id := 1 }]
    doctor_specs := [{ doctor_id := 1, spec_id := 1 }]
    rooms := [{ room_id := 1, clinic_id := 1 }]
    templates := [{ resource_id := 1
                    resource_type := "DOCTOR"
                    clinic_id := 1
                    day_of_week := 0
                    start_hour := 9
                    end_hour := 17 }] }

/-- Two active General Dentists at clinic 1: doctor 1 (listed first) works
16:00–17:00, doctor 2 works 09:00–17:00, both on weekday 5; one active
room. -/
def twoDoctorEmergDB : DB :=
  { doctors := [{ doctor_id := 1, tenant_id := 1 }, { doctor_id := 2, tenant_id := 1 }]
    doctor_specs := [{ doctor_id := 1, spec_id := 1 }, { doctor_id := 2, spec_id := 1 }]
    rooms := [{ room_id := 1, clinic_id := 1 }]
    specs := [{ spec_id := 1, tenant_id := 1, name := "General Dentist" }]
    templates := [{ resource_id := 1
                    resource_type := "DOCTOR"
                    clinic_id := 1
                    day_of_week := 5
                    start_hour := 16
                    end_hour := 17 },
                  { resource_id := 2
                    resource_type := "DOCTOR"
                    clinic_id := 1
                    day_of_week := 5
                    start_hour := 9
                    end_hour := 17 }] }

/-- The slot `handle_emergency` returns on `weekendEmergDB` with
`today = 4` (a Friday) at 00:00. -/
def weekendSlot : EmergencySlot :=
  { type := "EMERGENCY"
    date := 5
    time := 540
    end_time := 555
    time_block := 0
    duration_minutes := 15
    doctor_id := 1
    doctor_name := ""
    room_id := 1
    room_name := ""
    clinic_id := 1
    procedure := "Emergency Triage"
    score := 1000 }

/-- A one-block booking request used by the booking witness. -/
def bookSlotA : BookSlot :=
  { date := 10
    time := 540
    time_block := 0
    duration_minutes := 15
    doctor_id := 1
    room_id := 2
    clinic_id := 1 }

/-- A single unscored slot used by the optimizer witness. -/
def slotA : SlotOption :=
  { type := "SINGLE"
    date := 3
    time := 540
    end_time := 570
    time_block := 0
    duration_minutes := 30
    doctor_id := 1
    doctor_name := "D"
    room_id := 1
    room_name := "R"
    clinic_id := 1 }

/-! # Theorems -/

/-! ## Contiguity finder -/

theorem findContiguousGo_mem {k : Nat} (hk : 1 ≤ k) :
    ∀ (l : List Bool) (i run s : Nat), run ≤ i →
      (s ∈ findContiguousGo k i run l ↔
        ∃ j < l.length, s + k = i + j + 1 ∧ i ≤ s + run ∧
          ∀ p, s ≤ p → i ≤ p → p < s + k → l.getD (p - i) false = true) := by
  intro l
  induction l with
  | nil => simp [findContiguousGo]
  | cons b rest ih =>
    intro i run s hri
    cases hb : b with
    | true =>
      simp only [findContiguousGo, hb, if_true]
      rw [List.mem_append, ih (i + 1) (run + 1) s (by omega)]
      constructor
      · rintro (hemit | ⟨j, hj, hsum, hle, hwin⟩)
        · have hrk : run + 1 ≥ k := by
            by_contra h
            simp [h] at hemit
          have hs : s = i + 1 - k := by
            by_contra h
            simp [hrk, h] at hemit
          refine ⟨0, by simp, by omega, by omega, ?_⟩
          intro p hsp hip hpk
          have hpi : p = i := by omega
          subst hpi
          simp [Nat.sub_self, hb]
        · refine ⟨j + 1, by simpa using hj, by omega, by omega, ?_⟩
          intro p hsp hip hpk
          rcases Nat.lt_or_ge i p with hip' | hip'
          · have : p - i = (p - (i + 1)) + 1 := by omega
            rw [this, List.getD_cons_succ]
            exact hwin p hsp (by omega) (by omega)
          · have hpi : p = i := by omega
            subst hpi
            simp [Nat.sub_self, hb]
      · rintro ⟨j, hj, hsum, hle, hwin⟩
        cases j with
        | zero =>
          left
          have hki : k ≤ i + 1 := by omega
          have hrk : run + 1 ≥ k := by omega
          have hs : s = i + 1 - k := by omega
          simp [hrk, hs]
        | succ j' =>
          right
          refine ⟨j', by simpa using hj, by omega, by omega, ?_⟩
          intro p hsp hip hpk
          have := hwin p hsp (by omega) hpk
          have hshift : p - i = (p - (i + 1)) + 1 := by omega
          rw [hshift, List.getD_cons_succ] at this
          exact this
    | false =>
      simp only [findContiguousGo, hb, Bool.false_eq_true, if_false]
      rw [ih (i + 1) 0 s (by omega)]
      constructor
      · rintro ⟨j, hj, hsum, hle, hwin⟩
        refine ⟨j + 1, by simpa using hj, by omega, by omega, ?_⟩
        intro p hsp hip hpk
        have hip' : i + 1 ≤ p := by omega
        have : p - i = (p - (i + 1)) + 1 := by omega
        rw [this, List.getD_cons_succ]
        exact hwin p hsp hip' hpk
      · rintro ⟨j, hj, hsum, hle, hwin⟩
        cases j with
        | zero =>
          exfalso
          have hwi := hwin i (by omega) (by omega) (by omega)
          rw [Nat.sub_self] at hwi
          simp [hb] at hwi
        | succ j' =>
          have his : i + 1 ≤ s := by
            by_contra h
            have hwi := hwin i (by omega) (by omega) (by omega)
            rw [Nat.sub_self] at hwi
            simp [hb] at hwi
          refine ⟨j', by simpa using hj, by omega, by omega, ?_⟩
          intro p hsp hip hpk
          have := hwin p hsp (by omega) hpk
          have hshift : p - i = (p - (i + 1)) + 1 := by omega
          rw [hshift, List.getD_cons_succ] at this
          exact this

theorem findContiguousGo_lower {k : Nat} (hk : 1 ≤ k) (l : List Bool)
    (i run s : Nat) (hri : run ≤ i) (hs : s ∈ findContiguousGo k i run l) :
    i + 1 ≤ s + k := by
  rcases (findContiguousGo_mem hk l i run s hri).1 hs with ⟨j, _, hsum, _, _⟩
  omega

theorem findContiguousGo_sorted {k : Nat} (hk : 1 ≤ k) :
    ∀ (l : List Bool) (i run : Nat), run ≤ i →
      List.Pairwise (fun a b => a < b) (findContiguousGo k i run l) := by
  intro l
  induction l with
  | nil => simp [findContiguousGo]
  | cons b rest ih =>
    intro i run hri
    cases hb : b with
    | true =>
      simp only [findContiguousGo, hb, if_true]
      apply List.pairwise_append.2
      refine ⟨?_, ih (i + 1) (run + 1) (by omega), ?_⟩
      · by_cases hrk : run + 1 ≥ k <;> simp [hrk]
      · intro a ha c hc
        have hak : a = i + 1 - k ∧ run + 1 ≥ k := by
          by_cases hrk : run + 1 ≥ k
          · simp [hrk] at ha
            exact ⟨ha, hrk⟩
          · simp [hrk] at ha
        have hck := findContiguousGo_lower hk rest (i + 1) (run + 1) c (by omega) hc
        omega
    | false =>
      simp only [findContiguousGo, hb, Bool.false_eq_true, if_false]
      exact ih (i + 1) 0 (by omega)

/-- C4: for every boolean mask and every `k ≥ 1`, `_find_contiguous(mask, k)`
contains exactly the valid starts — the indices `s` such that
`mask[s..s+k-1]` all exist and are true — and lists them in strictly
ascending order (hence without duplicates). -/
theorem C4_find_contiguous_exact (mask : List Bool) (k : Nat) (hk : 1 ≤ k) :
    (∀ s, s ∈ findContiguous mask k ↔ validStart mask k s) ∧
      List.Pairwise (fun a b => a < b) (findContiguous mask k) := by
  constructor
  · intro s
    rw [findContiguous, findContiguousGo_mem hk mask 0 0 s (Nat.le_refl 0)]
    constructor
    · rintro ⟨j, hj, hsum, -, hwin⟩
      refine ⟨by omega, ?_⟩
      intro q hq
      have := hwin (s + q) (by omega) (by omega) (by omega)
      simpa using this
    · rintro ⟨hlen, hwin⟩
      refine ⟨s + k - 1, by omega, by omega, by omega, ?_⟩
      intro p hsp hip hpk
      have := hwin (p - s) (by omega)
      have hps : s + (p - s) = p := by omega
      rw [hps] at this
      simpa using this
  · exact findContiguousGo_sorted hk mask 0 0 (Nat.le_refl 0)

/-- Witness for C4 at a concrete mask: `k = 2` on `[T, T, T, F, T, T]`. -/
theorem C4_find_contiguous_exact_witness :
    (1 : Nat) ≤ 2 ∧
      ((∀ s, s ∈ findContiguous [true, true, true, false, true, true] 2 ↔
          validStart [true, true, true, false, true, true] 2 s) ∧
        List.Pairwise (fun a b => a < b)
          (findContiguous [true, true, true, false, true, true] 2)) :=
  ⟨by decide,
    C4_find_contiguous_exact [true, true, true, false, true, true] 2 (by decide)⟩

/-! ## Classifier -/

/-- Tier-1 firing condition of `_classify_condition`. -/
def tier1Cond (i : ClinicalIssue) : Bool :=
  i.airway_compromise || i.trauma || i.bleeding

/-- Tier-2 firing condition (endodontic). -/
def tier2Cond (i : ClinicalIssue) : Bool :=
  i.has_pain && (decide (i.severity.getD 0 ≥ 7)
    && (i.thermal_sensitivity || i.biting_pain) && !i.swelling)

/-- Tier-3 firing condition (surgical, first form). -/
def tier3Cond (i : ClinicalIssue) : Bool :=
  i.swelling && (i.impacted_wisdom || strContains (strLower i.symptom_cluster) "wisdom")

/-- Tier-3 firing condition (surgical, second form). -/
def tier3bCond (i : ClinicalIssue) : Bool :=
  i.swelling && strContains (strLower i.symptom_cluster) "extraction"

/-- Tier-4 firing condition (restorative). -/
def tier4Cond (i : ClinicalIssue) : Bool :=
  i.has_pain && (decide (i.severity.getD 0 ≤ 6) && (!i.swelling && !i.thermal_sensitivity))

/-- Tier-5 keyword fallback as a partial key lookup. -/
def tier5Key (i : ClinicalIssue) : Option String :=
  let cluster := strLower i.symptom_cluster
  if strContains cluster "root canal" then some "root_canal"
  else if strContains cluster "wisdom" then some "wisdom_extraction"
  else if strContains cluster "crown" then some "crown"
  else if strContains cluster "filling" then some "filling"
  else if strContains cluster "clean" then some "general_checkup"
  else none

theorem tier1_list_iff (issue : ClinicalIssue) :
    ((if issue.airway_compromise then ["Airway compromise"] else [])
        ++ (if issue.trauma then ["Dental trauma"] else [])
        ++ (if issue.bleeding then ["Uncontrolled bleeding"] else []) ≠ []) ↔
      tier1Cond issue = true := by
  cases ha : issue.airway_compromise <;> cases ht : issue.trauma <;>
    cases hbl : issue.bleeding <;> simp [tier1Cond, ha, ht, hbl]

/-- C3: the classifier is total and deterministic — every issue is mapped to
exactly one of the six condition keys, the tiers fire in source order
(emergency, endodontic, surgical, restorative, keyword, default), and the
default returns `general_checkup` with triggers `["Routine follow-up"]`. -/
theorem C3_classifier_tiers (issue : ClinicalIssue) :
    (classifyCondition issue).1 ∈
        ["emergency", "root_canal", "wisdom_extraction", "crown", "filling",
          "general_checkup"] ∧
      (tier1Cond issue = true → (classifyCondition issue).1 = "emergency") ∧
      (tier1Cond issue = false → tier2Cond issue = true →
        (classifyCondition issue).1 = "root_canal") ∧
      (tier1Cond issue = false → tier2Cond issue = false → tier3Cond issue = true →
        (classifyCondition issue).1 = "wisdom_extraction") ∧
      (tier1Cond issue = false → tier2Cond issue = false → tier3Cond issue = false →
        tier3bCond issue = true → (classifyCondition issue).1 = "wisdom_extraction") ∧
      (tier1Cond issue = false → tier2Cond issue = false → tier3Cond issue = false →
        tier3bCond issue = false → tier4Cond issue = true →
        (classifyCondition issue).1 = "filling") ∧
      (tier1Cond issue = false → tier2Cond issue = false → tier3Cond issue = false →
        tier3bCond issue = false → tier4Cond issue = false →
        tier5Key issue = some (classifyCondition issue).1 ∨
          (tier5Key issue = none ∧
            classifyCondition issue = ("general_checkup", ["Routine follow-up"]))) := by
  refine ⟨?_, ?_, ?_, ?_, ?_, ?_, ?_⟩
  · simp only [classifyCondition]
    by_cases ht1 : tier1Cond issue = true
    · rw [if_pos ((tier1_list_iff issue).mpr ht1)]
      simp
    · rw [if_neg (by rw [tier1_list_iff]; exact ht1)]
      simp only [← tier2Cond.eq_def, ← tier3Cond.eq_def, ← tier3bCond.eq_def,
        ← tier4Cond.eq_def]
      by_cases c2 : tier2Cond issue = true
      · simp [c2]
      rw [if_neg c2]
      by_cases c3 : tier3Cond issue = true
      · simp [c3]
      rw [if_neg c3]
      by_cases c3b : tier3bCond issue = true
      · simp [c3b]
      rw [if_neg c3b]
      by_cases c4 : tier4Cond issue = true
      · simp [c4]
      rw [if_neg c4]
      by_cases k1 : strContains (strLower issue.symptom_cluster) "root canal" = true
      · simp [k1]
      rw [if_neg k1]
      by_cases k2 : strContains (strLower issue.symptom_cluster) "wisdom" = true
      · simp [k2]
      rw [if_neg k2]
      by_cases k3 : strContains (strLower issue.symptom_cluster) "crown" = true
      · simp [k3]
      rw [if_neg k3]
      by_cases k4 : strContains (strLower issue.symptom_cluster) "filling" = true
      · simp [k4]
      rw [if_neg k4]
      by_cases k5 : strContains (strLower issue.symptom_cluster) "clean" = true
      · simp [k5]
      rw [if_neg k5]
      simp
  · intro h1
    simp only [classifyCondition]
    rw [if_pos ((tier1_list_iff issue).mpr h1)]
  · intro h1 h2
    simp only [classifyCondition]
    rw [if_neg (by rw [tier1_list_iff]; simp [h1])]
    simp only [← tier2Cond.eq_def]
    rw [if_pos h2]
  · intro h1 h2 h3
    simp only [classifyCondition]
    rw [if_neg (by rw [tier1_list_iff]; simp [h1])]
    simp only [← tier2Cond.eq_def, ← tier3Cond.eq_def]
    rw [if_neg (by simp [h2]), if_pos h3]
  · intro h1 h2 h3 h3b
    simp only [classifyCondition]
    rw [if_neg (by rw [tier1_list_iff]; simp [h1])]
    simp only [← tier2Cond.eq_def, ← tier3Cond.eq_def, ← tier3bCond.eq_def]
    rw [if_neg (by simp [h2]), if_neg (by simp [h3]), if_pos h3b]
  · intro h1 h2 h3 h3b h4
    simp only [classifyCondition]
    rw [if_neg (by rw [tier1_list_iff]; simp [h1])]
    simp only [← tier2Cond.eq_def, ← tier3Cond.eq_def, ← tier3bCond.eq_def,
      ← tier4Cond.eq_def]
    rw [if_neg (by simp [h2]), if_neg (by simp [h3]), if_neg (by simp [h3b]),
      if_pos h4]
  · intro h1 h2 h3 h3b h4
    simp only [classifyCondition]
    rw [if_neg (by rw [tier1_list_iff]; simp [h1])]
    simp only [← tier2Cond.eq_def, ← tier3Cond.eq_def, ← tier3bCond.eq_def,
      ← tier4Cond.eq_def]
    rw [if_neg (by simp [h2]), if_neg (by simp [h3]), if_neg (by simp [h3b]),
      if_neg (by simp [h4])]
    by_cases k1 : strContains (strLower issue.symptom_cluster) "root canal" = true
    · left
      rw [if_pos k1]
      simp [tier5Key, k1]
    rw [if_neg k1]
    by_cases k2 : strContains (strLower issue.symptom_cluster) "wisdom" = true
    · left
      rw [if_pos k2]
      simp [tier5Key, k1, k2]
    rw [if_neg k2]
    by_cases k3 : strContains (strLower issue.symptom_cluster) "crown" = true
    · left
      rw [if_pos k3]
      simp [tier5Key, k1, k2, k3]
    rw [if_neg k3]
    by_cases k4 : strContains (strLower issue.symptom_cluster) "filling" = true
    · left
      rw [if_pos k4]
      simp [tier5Key, k1, k2, k3, k4]
    rw [if_neg k4]
    by_cases k5 : strContains (strLower issue.symptom_cluster) "clean" = true
    · left
      rw [if_pos k5]
      simp [tier5Key, k1, k2, k3, k4, k5]
    rw [if_neg k5]
    right
    exact ⟨by simp [tier5Key, k1, k2, k3, k4, k5], rfl⟩

/-- Witness for C3 at a concrete issue (trauma forces the emergency tier). -/
theorem C3_classifier_tiers_witness :
    tier1Cond { trauma := true } = true ∧
      (classifyCondition { trauma := true }).1 = "emergency" :=
  ⟨by decide, (C3_classifier_tiers { trauma := true }).2.1 (by decide)⟩

/-- C10: an issue with pain, unknown severity, and none of swelling, thermal
sensitivity, airway compromise, trauma or bleeding is classified `filling`:
the missing severity is read as 0 by both the `severity≥7` and `severity≤6`
comparisons, routing the issue to the restorative tier. -/
theorem C10_missing_severity_filling (issue : ClinicalIssue)
    (hp : issue.has_pain = true) (hsev : issue.severity = none)
    (hs : issue.swelling = false) (hth : issue.thermal_sensitivity = false)
    (ha : issue.airway_compromise = false) (htr : issue.trauma = false)
    (hb : issue.bleeding = false) :
    (classifyCondition issue).1 = "filling" := by
  simp [classifyCondition, hp, hsev, hs, hth, ha, htr, hb]

/-- Witness for C10 at a concrete issue. -/
theorem C10_missing_severity_filling_witness :
    (classifyCondition { has_pain := true, symptom_cluster := "wisdom" }).1
      = "filling" :=
  C10_missing_severity_filling { has_pain := true, symptom_cluster := "wisdom" }
    rfl rfl rfl rfl rfl rfl rfl

/-! ## State merge -/

theorem lookup_append (a b : List (String × String)) (k : String) :
    (a ++ b).lookup k = ((a.lookup k).orElse (fun _ => b.lookup k)) := by
  induction a with
  | nil => simp
  | cons x a ih =>
    by_cases hk : k == x.1
    · simp [List.lookup, hk]
    · simp only [List.cons_append, List.lookup, hk]
      exact ih

theorem lookup_filter_key (l : List (String × String))
    (p q : String × String → Bool) (k : String)
    (h : ∀ x : String × String, (x.1 == k) = true → p x = q x) :
    (l.filter p).lookup k = (l.filter q).lookup k := by
  induction l with
  | nil => simp
  | cons x l ih =>
    by_cases hx : (x.1 == k) = true
    · have := h x hx
      have hk : (k == x.1) = true := by
        have := (beq_iff_eq).1 hx
        simp [this]
      cases hp : p x <;> rw [hp] at this <;>
        simp [List.filter, hp, ← this, List.lookup, hk, ih]
    · have hk : (k == x.1) = false := by
        have : ¬(x.1 = k) := by
          intro hcon
          exact hx (by simp [hcon])
        simp
        intro hcon
        exact this hcon.symm
      cases hp : p x <;> cases hq : q x <;>
        simp [List.filter, hp, hq, List.lookup, hk, ih]

theorem mergeMaps_lookup (old new : List (String × String)) (k : String) :
    (mergeMaps old new).lookup k =
      ((new.lookup k).orElse (fun _ => old.lookup k)) := by
  induction old with
  | nil =>
    simp only [mergeMaps, List.map_nil, List.nil_append, List.any_nil,
      Bool.not_false, List.filter_true]
    cases new.lookup k <;> simp [Option.orElse]
  | cons x old ih =>
    by_cases hk : (k == x.1) = true
    · have hkx : k = x.1 := (beq_iff_eq).1 hk
      simp only [mergeMaps, List.map_cons, List.cons_append, List.lookup, hk]
      cases hnew : new.lookup k <;>
        simp [Option.orElse, hkx ▸ hnew]
    · simp only [mergeMaps, List.map_cons, List.cons_append, List.lookup, hk]
      have heq : ((old.map (fun p => (p.1, (new.lookup p.1).getD p.2))) ++
          new.filter (fun p => !((x :: old).any (fun q => q.1 == p.1)))).lookup k =
          ((old.map (fun p => (p.1, (new.lookup p.1).getD p.2))) ++
          new.filter (fun p => !(old.any (fun q => q.1 == p.1)))).lookup k := by
        rw [lookup_append, lookup_append]
        congr 1
        funext u
        apply lookup_filter_key
        intro y hy
        have hyk : y.1 = k := (beq_iff_eq).1 hy
        have hx1 : (x.1 == y.1) = false := by
          rw [hyk]
          cases hxx : x.1 == k
          · rfl
          · exact absurd ((beq_iff_eq).1 hxx).symm
              (fun hc => by simp [hc] at hk)
        simp [List.any_cons, hx1]
      have ih' : (List.map (fun p => (p.1, (List.lookup p.1 new).getD p.2)) old ++
          List.filter (fun p => !old.any fun q => q.1 == p.1) new).lookup k =
          ((new.lookup k).orElse (fun _ => old.lookup k)) := ih
      rw [show ((List.map (fun p => (p.1, (List.lookup p.1 new).getD p.2)) old).append
          (List.filter (fun p => !(x :: old).any fun q => q.1 == p.1) new)) =
          (List.map (fun p => (p.1, (List.lookup p.1 new).getD p.2)) old ++
          List.filter (fun p => !(x :: old).any fun q => q.1 == p.1) new) from rfl]
      rw [heq]
      exact ih'

theorem appendSymptoms_mem (old : List String) :
    ∀ (base : List String) (s : String),
      s ∈ appendSymptoms base old ↔ s ∈ base ∨ s ∈ old := by
  induction old with
  | nil => simp [appendSymptoms]
  | cons x old ih =>
    intro base s
    have hstep : appendSymptoms base (x :: old) =
        appendSymptoms (if x ∈ base then base else base ++ [x]) old := by
      simp only [appendSymptoms, List.foldl_cons]
    rw [hstep, ih]
    by_cases hx : x ∈ base
    · simp only [if_pos hx]
      constructor
      · rintro (h | h)
        · exact Or.inl h
        · exact Or.inr (List.mem_cons_of_mem x h)
      · rintro (h | h)
        · exact Or.inl h
        · rcases List.mem_cons.1 h with h | h
          · exact Or.inl (h ▸ hx)
          · exact Or.inr h
    · simp only [if_neg hx]
      constructor
      · rintro (h | h)
        · rcases List.mem_append.1 h with h | h
          · exact Or.inl h
          · exact Or.inr (List.mem_cons.2 (Or.inl (List.mem_singleton.1 h)))
        · exact Or.inr (List.mem_cons_of_mem x h)
      · rintro (h | h)
        · exact Or.inl (List.mem_append.2 (Or.inl h))
        · rcases List.mem_cons.1 h with h | h
          · exact Or.inl (List.mem_append.2 (Or.inr (by simp [h])))
          · exact Or.inr h

theorem appendSymptoms_spec (old : List String) :
    ∀ base : List String,
      ∃ extras, appendSymptoms base old = base ++ extras ∧
        extras.Sublist old ∧ extras.Nodup ∧
        (∀ s ∈ extras, s ∉ base) ∧
        (∀ s ∈ old, s ∉ base → s ∈ extras) := by
  induction old with
  | nil =>
    intro base
    exact ⟨[], by simp [appendSymptoms], List.nil_sublist _, List.nodup_nil,
      by simp, by simp⟩
  | cons x old ih =>
    intro base
    have hstep : appendSymptoms base (x :: old) =
        appendSymptoms (if x ∈ base then base else base ++ [x]) old := by
      simp only [appendSymptoms, List.foldl_cons]
    by_cases hx : x ∈ base
    · rw [hstep, if_pos hx]
      obtain ⟨extras, heq, hsub, hnd, hnb, hcomp⟩ := ih base
      refine ⟨extras, heq, hsub.cons x, hnd, hnb, ?_⟩
      intro s hs hsb
      rcases List.mem_cons.1 hs with rfl | hs
      · exact absurd hx hsb
      · exact hcomp s hs hsb
    · rw [hstep, if_neg hx]
      obtain ⟨extras, heq, hsub, hnd, hnb, hcomp⟩ := ih (base ++ [x])
      refine ⟨x :: extras, ?_, hsub.cons₂ x, ?_, ?_, ?_⟩
      · rw [heq, List.append_assoc]
        rfl
      · refine List.nodup_cons.2 ⟨?_, hnd⟩
        intro hxe
        exact hnb x hxe (List.mem_append.2 (Or.inr (List.mem_singleton.2 rfl)))
      · intro s hs
        rcases List.mem_cons.1 hs with rfl | hs
        · exact hx
        · intro hsb
          exact hnb s hs (List.mem_append.2 (Or.inl hsb))
      · intro s hs hsb
        rcases List.mem_cons.1 hs with rfl | hs
        · exact List.mem_cons_self _ _
        · by_cases hsx : s = x
          · exact hsx ▸ List.mem_cons_self _ _
          · have hnotx : s ∉ base ++ [x] := by
              intro hc
              rcases List.mem_append.1 hc with hc | hc
              · exact hsb hc
              · exact hsx (List.mem_singleton.1 hc)
            exact List.mem_cons_of_mem _ (hcomp s hs hnotx)

/-- C9 counterexample: the 1:1 merge does not OR every boolean feature
flag — a prior issue with `thermal_sensitivity = true` merged into a new
issue with `thermal_sensitivity = false` yields a merged issue with the
flag false (the source ORs only `has_pain`, `swelling`, `bleeding`,
`trauma`). -/
theorem C9_counterexample :
    ({ thermal_sensitivity := true : ClinicalIssue }).thermal_sensitivity = true ∧
      (mergeWithPreviousIssues [{}] [{ thermal_sensitivity := true }]).map
        (fun m => m.thermal_sensitivity) = [false] := by
  constructor
  · rfl
  · rfl

/-- C9 (amended): in the 1:1 merge, exactly the four flags `has_pain`,
`swelling`, `bleeding`, `trauma` are ORed (every other boolean flag keeps
the new issue's value); `severity` and `duration_days` keep the new value
when non-null and the old otherwise; `location` keeps the new value when
truthy (non-null, non-empty), else the old when truthy, else the new;
`field_answers` are merged with new entries winning on key conflicts; and
`reported_symptoms` is the union of both lists preserving insertion order
(new first): the merged list is literally the new list followed by
`extras`, where `extras` keeps the old list's relative order (a sublist of
it), carries no duplicates, is disjoint from the new list, and contains
every old symptom absent from the new list. -/
theorem C9_merge_rules (n o : ClinicalIssue) :
    ∃ m, mergeWithPreviousIssues [n] [o] = [m] ∧
      m.has_pain = (n.has_pain || o.has_pain) ∧
      m.swelling = (n.swelling || o.swelling) ∧
      m.bleeding = (n.bleeding || o.bleeding) ∧
      m.trauma = (n.trauma || o.trauma) ∧
      m.thermal_sensitivity = n.thermal_sensitivity ∧
      m.biting_pain = n.biting_pain ∧
      m.visible_swelling = n.visible_swelling ∧
      m.airway_compromise = n.airway_compromise ∧
      m.impacted_wisdom = n.impacted_wisdom ∧
      m.requires_sedation = n.requires_sedation ∧
      m.severity = (if n.severity.isSome then n.severity else o.severity) ∧
      m.duration_days =
        (if n.duration_days.isSome then n.duration_days else o.duration_days) ∧
      m.location =
        (if strTruthy n.location then n.location
         else if strTruthy o.location then o.location else n.location) ∧
      (∀ k, m.field_answers.lookup k =
        ((n.field_answers.lookup k).orElse (fun _ => o.field_answers.lookup k))) ∧
      (∀ s, s ∈ m.reported_symptoms ↔
        s ∈ n.reported_symptoms ∨ s ∈ o.reported_symptoms) ∧
      (∃ extras, m.reported_symptoms = n.reported_symptoms ++ extras ∧
        extras.Sublist o.reported_symptoms ∧ extras.Nodup ∧
        (∀ s ∈ extras, s ∉ n.reported_symptoms) ∧
        (∀ s ∈ o.reported_symptoms, s ∉ n.reported_symptoms → s ∈ extras)) := by
  refine ⟨mergeIssuePair n o, rfl, ?_, ?_, ?_, ?_, rfl, rfl, rfl, rfl, rfl, rfl,
    ?_, ?_, ?_, ?_, ?_, ?_⟩
  · show (if o.has_pain && !n.has_pain then true else n.has_pain) = _
    cases n.has_pain <;> cases o.has_pain <;> rfl
  · show (if o.swelling && !n.swelling then true else n.swelling) = _
    cases n.swelling <;> cases o.swelling <;> rfl
  · show (if o.bleeding && !n.bleeding then true else n.bleeding) = _
    cases n.bleeding <;> cases o.bleeding <;> rfl
  · show (if o.trauma && !n.trauma then true else n.trauma) = _
    cases n.trauma <;> cases o.trauma <;> rfl
  · show (if o.severity.isSome && n.severity.isNone then o.severity else n.severity) = _
    cases n.severity <;> cases o.severity <;> rfl
  · show (if o.duration_days.isSome && n.duration_days.isNone
        then o.duration_days else n.duration_days) = _
    cases n.duration_days <;> cases o.duration_days <;> rfl
  · show (if strTruthy o.location && !(strTruthy n.location)
        then o.location else n.location) = _
    cases hn : strTruthy n.location <;> cases ho : strTruthy o.location <;> simp
  · intro k
    show (if !o.field_answers.isEmpty
        then mergeMaps o.field_answers n.field_answers
        else n.field_answers).lookup k = _
    cases ho : o.field_answers with
    | nil =>
      rw [if_neg (by decide)]
      cases List.lookup k n.field_answers <;> rfl
    | cons x l =>
      simp only [List.isEmpty_cons, Bool.not_false, if_pos]
      rw [mergeMaps_lookup]
  · intro s
    exact appendSymptoms_mem o.reported_symptoms n.reported_symptoms s
  · show ∃ extras,
        appendSymptoms n.reported_symptoms o.reported_symptoms =
          n.reported_symptoms ++ extras ∧
        extras.Sublist o.reported_symptoms ∧ extras.Nodup ∧
        (∀ s ∈ extras, s ∉ n.reported_symptoms) ∧
        (∀ s ∈ o.reported_symptoms, s ∉ n.reported_symptoms → s ∈ extras)
    exact appendSymptoms_spec o.reported_symptoms n.reported_symptoms

/-! ## Deterministic action gate -/

theorem backendCompletionCheck_iff (assess : ClinicalIssue → ClinicalIssue)
    (i : ClinicalIssue) :
    (backendCompletionCheck assess i).2 = true ↔
      3 ≤ structuredCount (assess i) ∧
        (assess i).missing_clinical_elements = [] := by
  simp only [backendCompletionCheck]
  by_cases h : structuredCount (assess i) < 3
  · simp [h, Nat.not_le.2 h]
  · simp [h, Nat.not_lt.1 h, List.isEmpty_iff]

theorem checkAllIssues_ok (assess : ClinicalIssue → ClinicalIssue) :
    ∀ issues : List ClinicalIssue,
      (checkAllIssues assess issues).2 = true ↔
        ∀ i ∈ issues, 3 ≤ structuredCount (assess i) ∧
          (assess i).missing_clinical_elements = [] := by
  intro issues
  induction issues with
  | nil => simp [checkAllIssues]
  | cons i rest ih =>
    simp only [checkAllIssues]
    by_cases hr : (backendCompletionCheck assess i).2 = true
    · rw [if_pos hr]
      simp only [List.mem_cons]
      constructor
      · intro h x hx
        rcases hx with hx | hx
        · exact hx ▸ (backendCompletionCheck_iff assess i).1 hr
        · exact (ih.1 h) x hx
      · intro h
        exact ih.2 (fun x hx => h x (Or.inr hx))
    · rw [if_neg hr]
      simp only [List.mem_cons]
      constructor
      · intro h
        exact absurd h (by simp)
      · intro h
        exact absurd ((backendCompletionCheck_iff assess i).2 (h i (Or.inl rfl))) hr

/-- C2 counterexample: with an empty issue list (and no danger flags) the
claim's routing condition "every issue has empty missing elements and ≥ 3
profile entries" holds vacuously, yet the gate returns CLARIFY, not ROUTE. -/
theorem C2_counterexample :
    (∀ i ∈ ({ issues := [] } : IntentResult).issues,
        3 ≤ structuredCount i ∧ i.missing_clinical_elements = []) ∧
      (¬ ∃ i ∈ ({ issues := [] } : IntentResult).issues,
        i.airway_compromise = true ∨ i.bleeding = true) ∧
      (actionGate (fun i => i) (fun _ => none)
          { issues := [] }).action_type = "CLARIFY" := by
  refine ⟨by simp, by simp, rfl⟩

/-- C2 (amended): for every assessment function (the absent
`core.clinical_gate` module) and every intent entering the Tier-4 gate:
danger (`airway_compromise ∨ bleeding` on any issue) forces ESCALATE with
EMERGENCY urgency, a raised safety flag and no clarification questions;
otherwise the gate returns ROUTE exactly when the issue list is non-empty
and every issue, after gate assessment, has at least 3 true
`clinical_profile` entries and no missing clinical elements; in all
remaining cases it returns CLARIFY. -/
theorem C2_action_gate (assess : ClinicalIssue → ClinicalIssue)
    (nextQ : ClinicalIssue → Option String) (intent : IntentResult) :
    ((∃ i ∈ intent.issues, i.airway_compromise = true ∨ i.bleeding = true) →
      (actionGate assess nextQ intent).action_type = "ESCALATE" ∧
        (actionGate assess nextQ intent).overall_urgency = some "EMERGENCY" ∧
        (actionGate assess nextQ intent).safety_flag = true ∧
        (actionGate assess nextQ intent).clarification_questions = []) ∧
      ((¬ ∃ i ∈ intent.issues, i.airway_compromise = true ∨ i.bleeding = true) →
        (((actionGate assess nextQ intent).action_type = "ROUTE" ↔
          intent.issues ≠ [] ∧ ∀ i ∈ intent.issues,
            3 ≤ structuredCount (assess i) ∧
              (assess i).missing_clinical_elements = []) ∧
        ((actionGate assess nextQ intent).action_type = "ROUTE" ∨
          (actionGate assess nextQ intent).action_type = "CLARIFY"))) := by
  have hany : intent.issues.any (fun i => i.airway_compromise || i.bleeding) = true ↔
      ∃ i ∈ intent.issues, i.airway_compromise = true ∨ i.bleeding = true := by
    simp [List.any_eq_true]
  constructor
  · intro h
    have := hany.2 h
    simp [actionGate, this]
  · intro h
    have hfalse : intent.issues.any (fun i => i.airway_compromise || i.bleeding) = false := by
      cases hcase : intent.issues.any (fun i => i.airway_compromise || i.bleeding)
      · rfl
      · exact absurd (hany.1 hcase) h
    have hcheck : (if intent.issues.isEmpty then (intent.issues, false)
        else checkAllIssues assess intent.issues).2 = true ↔
        (intent.issues ≠ [] ∧ ∀ i ∈ intent.issues,
          3 ≤ structuredCount (assess i) ∧
            (assess i).missing_clinical_elements = []) := by
      cases hempty : intent.issues with
      | nil => simp
      | cons i0 rest =>
        simp only [List.isEmpty_cons, Bool.false_eq_true, if_false]
        rw [checkAllIssues_ok]
        simp
    simp only [actionGate, hfalse, Bool.false_eq_true, if_false]
    by_cases hok : (if intent.issues.isEmpty then (intent.issues, false)
        else checkAllIssues assess intent.issues).2 = true
    · rw [if_pos hok]
      refine ⟨?_, Or.inl rfl⟩
      simp only [true_iff]
      exact hcheck.1 hok
    · rw [if_neg hok]
      refine ⟨?_, Or.inr rfl⟩
      constructor
      · intro hcon
        simp at hcon
      · intro hall
        exact absurd (hcheck.2 hall) hok

/-- Witness for C2 at a concrete intent whose single issue bleeds. -/
theorem C2_action_gate_witness :
    (∃ i ∈ ({ issues := [{ bleeding := true }] } : IntentResult).issues,
        i.airway_compromise = true ∨ i.bleeding = true) ∧
      (actionGate (fun i => i) (fun _ => none)
          { issues := [{ bleeding := true }] }).action_type = "ESCALATE" := by
  have h : ∃ i ∈ ({ issues := [{ bleeding := true }] } : IntentResult).issues,
      i.airway_compromise = true ∨ i.bleeding = true :=
    ⟨{ bleeding := true }, by simp, Or.inr rfl⟩
  exact ⟨h, ((C2_action_gate (fun i => i) (fun _ => none)
    { issues := [{ bleeding := true }] }).1 h).1⟩

/-! ## Scheduling engine: failure semantics and date bounds -/

/-- C8: when sedation or the procedure requires an anesthetist and no
tenant-matching anesthetist exists, `find_slots` returns the empty list;
likewise an empty candidate-doctor set yields an empty result.  The
embedding is a total function, so no exception can be raised. -/
theorem C8_failure_semantics (db : DB) (proc : Procedure) (needs_sedation : Bool)
    (tenant : Option Nat) (today : Nat) :
    ((needs_sedation || proc.requires_anesthetist) = true →
      tenantAnesthetist db tenant = none →
      findSlots db proc needs_sedation tenant today = []) ∧
    (candidateDoctors db proc tenant = [] →
      findSlots db proc needs_sedation tenant today = []) := by
  constructor
  · intro hneed hnone
    simp [findSlots, hneed, hnone]
  · intro hdocs
    cases hcond : (needs_sedation || proc.requires_anesthetist) with
    | true =>
      cases ha : tenantAnesthetist db tenant with
      | none => simp [findSlots, hcond, ha]
      | some an =>
        simp only [findSlots, hcond, ha, if_pos, hdocs]
        rw [List.flatMap_eq_nil_iff]
        intro off hoff
        simp [ite_self]
    | false =>
      simp only [findSlots, hcond, Bool.false_eq_true, if_false, hdocs]
      rw [List.flatMap_eq_nil_iff]
      intro off hoff
      simp [ite_self]

/-- Witness for C8: a database with no staff and no doctors. -/
theorem C8_failure_semantics_witness :
    ((true || witnessProc.requires_anesthetist) = true →
      tenantAnesthetist { } none = none →
      findSlots { } witnessProc true none 0 = []) ∧
    (candidateDoctors { } witnessProc none = [] →
      findSlots { } witnessProc true none 0 = []) :=
  ⟨fun h hn => (C8_failure_semantics { } witnessProc true none 0).1 h hn,
    fun h => (C8_failure_semantics { } witnessProc true none 0).2 h⟩

theorem emitSlots_date (proc : Procedure) (anesth : Option StaffRow)
    (target : Nat) (doc : Doctor) (room : Room) (clinic : Nat)
    (consultBlocks comboBlocks singleBlocks : Nat) (comb : List Bool)
    (s : SlotOption)
    (hs : s ∈ emitSlots proc anesth target doc room clinic consultBlocks
      comboBlocks singleBlocks comb) : s.date = target := by
  rw [emitSlots, List.mem_append] at hs
  rcases hs with hs | hs
  · by_cases hcombo : (proc.allow_same_day_combo && decide (consultBlocks > 0)) = true
    · rw [if_pos hcombo] at hs
      rcases List.mem_map.1 hs with ⟨start, -, hmk⟩
      rw [← hmk]
      rfl
    · rw [if_neg hcombo] at hs
      simp at hs
  · rcases List.mem_map.1 hs with ⟨start, -, hmk⟩
    rw [← hmk]
    rfl

theorem slotsForRoom_date (db : DB) (proc : Procedure) (anesth : Option StaffRow)
    (target : Nat) (doc : Doctor) (clinic : Nat) (docMask : List Bool)
    (consultBlocks comboBlocks singleBlocks : Nat) (room : Room)
    (s : SlotOption)
    (hs : s ∈ slotsForRoom db proc anesth target doc clinic docMask
      consultBlocks comboBlocks singleBlocks room) : s.date = target := by
  cases anesth with
  | none =>
    exact emitSlots_date proc none target doc room clinic _ _ _ _ s hs
  | some an =>
    by_cases hat : ((staffTemplates db an.staff_id).filter
        (fun t => t.clinic_id == clinic)).isEmpty = true
    · have hnil : slotsForRoom db proc (some an) target doc clinic docMask
          consultBlocks comboBlocks singleBlocks room = [] := by
        simp only [slotsForRoom, hat, if_true]
      rw [hnil] at hs
      simp at hs
    · have heq : slotsForRoom db proc (some an) target doc clinic docMask
          consultBlocks comboBlocks singleBlocks room =
          emitSlots proc (some an) target doc room clinic consultBlocks
            comboBlocks singleBlocks
            (List.zipWith (fun a b => a && b)
              (List.zipWith (fun a b => a && b) docMask
                ((List.range SLOTS_PER_DAY).map
                  (fun b => !(bookedAt db "room" room.room_id target b))))
              (availabilityMask db "staff" an.staff_id target
                ((staffTemplates db an.staff_id).filter
                  (fun t => t.clinic_id == clinic)))) := by
        simp only [slotsForRoom, hat, if_false, Bool.false_eq_true]
      rw [heq] at hs
      exact emitSlots_date proc (some an) target doc room clinic _ _ _ _ s hs

theorem slotsForDoctor_date (db : DB) (proc : Procedure) (anesth : Option StaffRow)
    (candidateRooms : List Room) (target : Nat)
    (consultBlocks comboBlocks singleBlocks : Nat) (doc : Doctor) (s : SlotOption)
    (hs : s ∈ slotsForDoctor db proc anesth candidateRooms target
      consultBlocks comboBlocks singleBlocks doc) : s.date = target := by
  simp only [slotsForDoctor] at hs
  by_cases hempty : (doctorTemplates db doc.doctor_id).isEmpty
  · rw [if_pos hempty] at hs
    simp at hs
  · rw [if_neg hempty] at hs
    rcases List.mem_flatMap.1 hs with ⟨clinic, -, hs⟩
    by_cases hrooms : (candidateRooms.filter (fun r => r.clinic_id == clinic)).isEmpty
    · rw [if_pos hrooms] at hs
      simp at hs
    · rw [if_neg hrooms] at hs
      rcases List.mem_flatMap.1 hs with ⟨room, -, hs⟩
      exact slotsForRoom_date db proc anesth target doc clinic _ _ _ _ room s hs

theorem findSlots_mem_date (db : DB) (proc : Procedure) (needs_sedation : Bool)
    (tenant : Option Nat) (today : Nat) (s : SlotOption)
    (hs : s ∈ findSlots db proc needs_sedation tenant today) :
    ∃ off, 1 ≤ off ∧ off ≤ SCHEDULE_LOOKAHEAD_DAYS ∧ s.date = today + off ∧
      weekday (today + off) < 5 := by
  simp only [findSlots] at hs
  rcases hcond : (needs_sedation || proc.requires_anesthetist) with _ | _ <;>
    rw [hcond] at hs
  case false =>
    simp only [Bool.false_eq_true, if_false] at hs
    rcases List.mem_flatMap.1 hs with ⟨off, hoff, hs⟩
    rcases List.mem_map.1 hoff with ⟨i, hi, hoffeq⟩
    by_cases hwk : weekday (today + off) ≥ 5
    · rw [if_pos hwk] at hs
      simp at hs
    · rw [if_neg hwk] at hs
      rcases List.mem_flatMap.1 hs with ⟨doc, -, hs⟩
      have hdate := slotsForDoctor_date db proc none _ (today + off) _ _ _ doc s hs
      exact ⟨off, by omega, by rw [← hoffeq]; have := List.mem_range.1 hi; omega,
        hdate, by omega⟩
  case true =>
    cases ha : tenantAnesthetist db tenant with
    | none =>
      rw [ha] at hs
      simp at hs
    | some an =>
      rw [ha] at hs
      rcases List.mem_flatMap.1 hs with ⟨off, hoff, hs⟩
      rcases List.mem_map.1 hoff with ⟨i, hi, hoffeq⟩
      by_cases hwk : weekday (today + off) ≥ 5
      · rw [if_pos hwk] at hs
        simp at hs
      · rw [if_neg hwk] at hs
        rcases List.mem_flatMap.1 hs with ⟨doc, -, hs⟩
        have hdate := slotsForDoctor_date db proc (some an) _ (today + off) _ _ _ doc s hs
        exact ⟨off, by omega, by rw [← hoffeq]; have := List.mem_range.1 hi; omega,
          hdate, by omega⟩

/-- C7: every slot emitted by `find_slots` lies strictly after today, at most
`SCHEDULE_LOOKAHEAD_DAYS = 14` days ahead, and never on a weekend
(weekday 5 or 6); the emergency handler's 4-day scan does not exclude
weekends — on a concrete database whose only template is for weekday 5 it
returns a Saturday slot. -/
theorem C7_weekday_bounds (db : DB) (proc : Procedure) (needs_sedation : Bool)
    (tenant : Option Nat) (today : Nat) :
    (∀ s ∈ findSlots db proc needs_sedation tenant today,
      today < s.date ∧ s.date ≤ today + SCHEDULE_LOOKAHEAD_DAYS ∧
        weekday s.date ≠ 5 ∧ weekday s.date ≠ 6) ∧
    ((handleEmergency weekendEmergDB none 4 0 0).map
        (fun s => weekday s.date) = some 5) := by
  constructor
  · intro s hs
    rcases findSlots_mem_date db proc needs_sedation tenant today s hs
      with ⟨off, h1, h14, hdate, hwk⟩
    rw [hdate]
    refine ⟨by omega, by omega, ?_, ?_⟩ <;> omega
  · rfl

/-- Witness for C7 on a slot list produced by a concrete database. -/
theorem C7_weekday_bounds_witness :
    ∀ s ∈ findSlots mondaySchedDB witnessProc false none 0,
      0 < s.date ∧ s.date ≤ 0 + SCHEDULE_LOOKAHEAD_DAYS ∧
        weekday s.date ≠ 5 ∧ weekday s.date ≠ 6 :=
  (C7_weekday_bounds mondaySchedDB witnessProc false none 0).1

/-! ## Optimizer -/

theorem slotScore_update (pc pd : Option Nat) (today : Nat) (t : SlotOption)
    (x : ℚ) : slotScore pc pd today { t with score := x } = slotScore pc pd today t :=
  rfl

theorem slotLe_trans (a b c : SlotOption) (h1 : slotLe a b = true)
    (h2 : slotLe b c = true) : slotLe a c = true := by
  simp only [slotLe, Bool.or_eq_true, Bool.and_eq_true, decide_eq_true_eq] at h1 h2 ⊢
  rcases h1 with h1 | ⟨h1e, h1d | ⟨h1de, h1t⟩⟩ <;>
    rcases h2 with h2 | ⟨h2e, h2d | ⟨h2de, h2t⟩⟩
  · exact Or.inl (lt_trans h2 h1)
  · exact Or.inl (h2e ▸ h1)
  · exact Or.inl (h2e ▸ h1)
  · exact Or.inl (h1e ▸ h2)
  · exact Or.inr ⟨h1e.trans h2e, Or.inl (lt_trans h1d h2d)⟩
  · exact Or.inr ⟨h1e.trans h2e, Or.inl (h2de ▸ h1d)⟩
  · exact Or.inl (h1e ▸ h2)
  · exact Or.inr ⟨h1e.trans h2e, Or.inl (h1de ▸ h2d)⟩
  · exact Or.inr ⟨h1e.trans h2e, Or.inr ⟨h1de.trans h2de, le_trans h1t h2t⟩⟩

theorem slotLe_total (a b : SlotOption) : (slotLe a b || slotLe b a) = true := by
  simp only [slotLe, Bool.or_eq_true, Bool.and_eq_true, decide_eq_true_eq]
  rcases lt_trichotomy a.score b.score with h | h | h
  · exact Or.inr (Or.inl h)
  · rcases Nat.lt_trichotomy a.date b.date with hd | hd | hd
    · exact Or.inl (Or.inr ⟨h, Or.inl hd⟩)
    · rcases Nat.le_total a.time b.time with ht | ht
      · exact Or.inl (Or.inr ⟨h, Or.inr ⟨hd, ht⟩⟩)
      · exact Or.inr (Or.inr ⟨h.symm, Or.inr ⟨hd.symm, ht⟩⟩)
    · exact Or.inr (Or.inr ⟨h.symm, Or.inl hd⟩)
  · exact Or.inl (Or.inl h)

theorem dedupTopGo_sublist :
    ∀ (l : List SlotOption) (seen : List (Nat × Nat × Nat × String)) (c : Nat),
      (dedupTopGo l seen c).Sublist l := by
  intro l
  induction l with
  | nil =>
    intro seen c
    simp [dedupTopGo]
  | cons s rest ih =>
    intro seen c
    simp only [dedupTopGo]
    by_cases h1 : dedupKey s ∈ seen
    · rw [if_pos h1]
      exact (ih seen c).cons s
    · rw [if_neg h1]
      by_cases h2 : c + 1 ≥ 10
      · rw [if_pos h2]
        exact (List.nil_sublist rest).cons₂ s
      · rw [if_neg h2]
        exact (ih (dedupKey s :: seen) (c + 1)).cons₂ s

theorem dedupTopGo_length :
    ∀ (l : List SlotOption) (seen : List (Nat × Nat × Nat × String)) (c : Nat),
      c < 10 → (dedupTopGo l seen c).length + c ≤ 10 := by
  intro l
  induction l with
  | nil =>
    intro seen c hc
    simp only [dedupTopGo, List.length_nil]
    omega
  | cons s rest ih =>
    intro seen c hc
    simp only [dedupTopGo]
    by_cases h1 : dedupKey s ∈ seen
    · rw [if_pos h1]
      exact ih seen c hc
    · rw [if_neg h1]
      by_cases h2 : c + 1 ≥ 10
      · rw [if_pos h2]
        simp only [List.length_singleton]
        omega
      · rw [if_neg h2]
        have := ih (dedupKey s :: seen) (c + 1) (by omega)
        simp only [List.length_cons]
        omega

theorem dedupTopGo_keys :
    ∀ (l : List SlotOption) (seen : List (Nat × Nat × Nat × String)) (c : Nat),
      (∀ s ∈ dedupTopGo l seen c, dedupKey s ∉ seen ∧
        (l.filter (fun t => dedupKey t == dedupKey s)).head? = some s) ∧
      List.Pairwise (fun a b => dedupKey a ≠ dedupKey b) (dedupTopGo l seen c) := by
  intro l
  induction l with
  | nil =>
    intro seen c
    simp [dedupTopGo]
  | cons s0 rest ih =>
    intro seen c
    simp only [dedupTopGo]
    by_cases h1 : dedupKey s0 ∈ seen
    · rw [if_pos h1]
      refine ⟨?_, (ih seen c).2⟩
      intro s hs
      obtain ⟨hnot, hhead⟩ := (ih seen c).1 s hs
      have hne : (dedupKey s0 == dedupKey s) = false := by
        rw [beq_eq_false_iff_ne]
        intro heq
        exact hnot (heq ▸ h1)
      refine ⟨hnot, ?_⟩
      rw [List.filter_cons, hne]
      exact hhead
    · rw [if_neg h1]
      by_cases h2 : c + 1 ≥ 10
      · rw [if_pos h2]
        refine ⟨?_, List.pairwise_singleton _ _⟩
        intro s hs
        rcases List.mem_singleton.1 hs with rfl
        refine ⟨h1, ?_⟩
        rw [List.filter_cons, show (dedupKey s == dedupKey s) = true from beq_self_eq_true _]
        rfl
      · rw [if_neg h2]
        constructor
        · intro s hs
          rcases List.mem_cons.1 hs with rfl | hs
          · refine ⟨h1, ?_⟩
            rw [List.filter_cons, show (dedupKey s == dedupKey s) = true from beq_self_eq_true _]
            rfl
          · obtain ⟨hnot, hhead⟩ := (ih (dedupKey s0 :: seen) (c + 1)).1 s hs
            have hne : dedupKey s ≠ dedupKey s0 := by
              intro heq
              exact hnot (by rw [heq]; exact List.mem_cons_self _ _)
            refine ⟨fun hmem => hnot (List.mem_cons_of_mem _ hmem), ?_⟩
            rw [List.filter_cons, show (dedupKey s0 == dedupKey s) = false from
              beq_eq_false_iff_ne.2 (fun h => hne h.symm)]
            exact hhead
        · refine List.pairwise_cons.2 ⟨?_, (ih (dedupKey s0 :: seen) (c + 1)).2⟩
          intro s hs
          obtain ⟨hnot, -⟩ := (ih (dedupKey s0 :: seen) (c + 1)).1 s hs
          intro heq
          exact hnot (by rw [← heq]; exact List.mem_cons_self _ _)

/-- C6: `optimize_slots` gives every returned slot the documented score,
returns at most 10 slots, sorted by `(−score, date asc, time asc)`, with
pairwise-distinct `(date, time, doctor_id, type)` keys, each returned slot
being the first slot of its key in the scored, sorted list. -/
theorem C6_optimizer (slots : List SlotOption) (pc pd : Option Nat) (today : Nat) :
    (∀ s ∈ optimizeSlots slots pc pd today, s.score = slotScore pc pd today s) ∧
      (optimizeSlots slots pc pd today).length ≤ 10 ∧
      List.Pairwise (fun a b => slotLe a b = true) (optimizeSlots slots pc pd today) ∧
      List.Pairwise (fun a b => dedupKey a ≠ dedupKey b)
        (optimizeSlots slots pc pd today) ∧
      (∀ s ∈ optimizeSlots slots pc pd today,
        (((slots.map (fun t => { t with score := slotScore pc pd today t })).mergeSort
            slotLe).filter (fun t => dedupKey t == dedupKey s)).head? = some s) := by
  have hsub : (optimizeSlots slots pc pd today).Sublist
      ((slots.map (fun t => { t with score := slotScore pc pd today t })).mergeSort
        slotLe) := dedupTopGo_sublist _ [] 0
  have hperm : ((slots.map (fun t => { t with score := slotScore pc pd today t })).mergeSort
      slotLe).Perm (slots.map (fun t => { t with score := slotScore pc pd today t })) :=
    List.mergeSort_perm _ _
  refine ⟨?_, ?_, ?_, ?_, ?_⟩
  · intro s hs
    have hmem : s ∈ slots.map (fun t => { t with score := slotScore pc pd today t }) :=
      hperm.mem_iff.1 (hsub.mem hs)
    rcases List.mem_map.1 hmem with ⟨t, -, rfl⟩
    exact (slotScore_update pc pd today t _).symm
  · have h : (optimizeSlots slots pc pd today).length + 0 ≤ 10 :=
      dedupTopGo_length _ [] 0 (by omega)
    omega
  · exact (List.sorted_mergeSort slotLe_trans slotLe_total _).sublist hsub
  · exact (dedupTopGo_keys _ [] 0).2
  · intro s hs
    exact ((dedupTopGo_keys _ [] 0).1 s hs).2

/-- Witness for C6 on a one-slot list. -/
theorem C6_optimizer_witness :
    { slotA with score := slotScore none none 0 slotA } ∈
        optimizeSlots [slotA] none none 0 ∧
      ({ slotA with score := slotScore none none 0 slotA }).score =
        slotScore none none 0 { slotA with score := slotScore none none 0 slotA } := by
  have hmem : { slotA with score := slotScore none none 0 slotA } ∈
      optimizeSlots [slotA] none none 0 := by
    have heq : optimizeSlots [slotA] none none 0 =
        [{ slotA with score := slotScore none none 0 slotA }] := by
      simp only [optimizeSlots, List.map_cons, List.map_nil,
        List.mergeSort_singleton, dedupTopGo]
      rw [if_neg (by simp), if_neg (by omega)]
    rw [heq]
    exact List.mem_singleton.2 rfl
  exact ⟨hmem, (C6_optimizer [slotA] none none 0).1 _ hmem⟩

/-! ## Emergency handler -/

/-- C5 counterexample: with two General Dentists on the same day, the
handler returns doctor 1's 16:00 block (block 28) although doctor 2's
template admits the free block 0 (09:00) with the same active room — the
result is the first hit in scan order, not the absolute earliest block. -/
theorem C5_counterexample :
    (handleEmergency twoDoctorEmergDB none 4 0 0).map
        (fun s => (s.date, s.time_block)) = some (5, 28) ∧
      (gdSpec twoDoctorEmergDB none).map (fun s => s.spec_id) = some 1 ∧
      (gdDoctors twoDoctorEmergDB none 1).map (fun d => d.doctor_id) = [1, 2] ∧
      (docDayTemplates twoDoctorEmergDB 2 (weekday (4 + 1))).map
        (fun t => (emergStartBlock t false 0 0, emergEndBlock t)) = [(0, 32)] ∧
      (firstActiveRoom twoDoctorEmergDB 1).map (fun r => r.room_id) = some 1 ∧
      emergFreeAt twoDoctorEmergDB 2 1 (4 + 1) 0 = true ∧
      (0 : Nat) < 28 :=
  ⟨rfl, rfl, rfl, rfl, rfl, rfl, by omega⟩

/-- C5 (amended): the emergency handler scans today plus the next 3 days in
day-major, then doctor-row, then template-row order, returning the first
free block it meets (not necessarily the absolute earliest of the day, and
considering only the first active room of each template's clinic).  Every
returned slot lies within the 4-day window, is free for its doctor and room
at that block, and on today starts strictly after the clamped current
block; the handler returns null exactly when this scan meets no free
block. -/
theorem C5_emergency_scan (db : DB) (tenant : Option Nat) (today nh nm : Nat) :
    (∀ s, handleEmergency db tenant today nh nm = some s →
      today ≤ s.date ∧ s.date ≤ today + 3 ∧
        emergFreeAt db s.doctor_id s.room_id s.date s.time_block = true ∧
        (s.date = today → currentBlock nh nm < (s.time_block : Int)) ∧
        s.duration_minutes = 15 ∧ s.time = blockToTimeMin s.time_block ∧
        s.type = "EMERGENCY") ∧
      (handleEmergency db tenant today nh nm = none ↔
        ∀ spec, gdSpec db tenant = some spec →
          gdDoctors db tenant spec.spec_id ≠ [] →
          ∀ off < 4, ∀ doc ∈ gdDoctors db tenant spec.spec_id,
            ∀ t ∈ docDayTemplates db doc.doctor_id (weekday (today + off)),
              ∀ room, firstActiveRoom db t.clinic_id = some room →
                ∀ b, emergStartBlock t (off == 0) nh nm ≤ b → b < emergEndBlock t →
                  emergFreeAt db doc.doctor_id room.room_id (today + off) b = false) := by
  constructor
  · intro s h
    rw [handleEmergency] at h
    cases hspec : gdSpec db tenant with
    | none =>
      rw [hspec] at h
      simp at h
    | some spec =>
      rw [hspec] at h
      have h' : (if (gdDoctors db tenant spec.spec_id).isEmpty = true
          then (none : Option EmergencySlot)
          else (List.range 4).findSome?
            (emergScanDay db (gdDoctors db tenant spec.spec_id) today nh nm)) =
          some s := h
      clear h
      by_cases hde : (gdDoctors db tenant spec.spec_id).isEmpty = true
      · rw [if_pos hde] at h'
        simp at h'
      · rw [if_neg hde] at h'
        obtain ⟨off, hoff, h⟩ := List.exists_of_findSome?_eq_some h'
        have hoff4 : off < 4 := List.mem_range.1 hoff
        simp only [emergScanDay] at h
        obtain ⟨doc, hdoc, h⟩ := List.exists_of_findSome?_eq_some h
        obtain ⟨t, ht, h⟩ := List.exists_of_findSome?_eq_some h
        cases hroom : firstActiveRoom db t.clinic_id with
        | none =>
          rw [emergScanTemplate, hroom] at h
          simp at h
        | some room =>
          rw [emergScanTemplate, hroom] at h
          have h3 : (List.range' (emergStartBlock t (off == 0) nh nm)
              (emergEndBlock t - emergStartBlock t (off == 0) nh nm)).findSome?
              (fun b => if emergFreeAt db doc.doctor_id room.room_id (today + off) b
                then some (mkEmergencySlot doc room t.clinic_id (today + off) b)
                else none) = some s := h
          obtain ⟨b, hb, hbeq⟩ := List.exists_of_findSome?_eq_some h3
          obtain ⟨hb1, hb2⟩ := List.mem_range'_1.1 hb
          by_cases hfree : emergFreeAt db doc.doctor_id room.room_id (today + off) b = true
          · rw [if_pos hfree] at hbeq
            have hs : s = mkEmergencySlot doc room t.clinic_id (today + off) b :=
              (Option.some.inj hbeq).symm
            subst hs
            refine ⟨by simp only [mkEmergencySlot]; omega,
              by simp only [mkEmergencySlot]; omega,
              hfree, ?_, rfl, rfl, rfl⟩
            intro hdate
            have hoff0 : off = 0 := by
              simp only [mkEmergencySlot] at hdate
              omega
            subst hoff0
            have hb1' : emergStartBlock t true nh nm ≤ b := hb1
            have hsb : (currentBlock nh nm + 1).toNat ≤
                emergStartBlock t true nh nm := by
              have hunfold : emergStartBlock t true nh nm =
                  (max (max 0 (((t.start_hour : Int) - DAY_START_HOUR)
                      * ((60 : Int) / SLOT_MINUTES)))
                    (currentBlock nh nm + 1)).toNat := rfl
              rw [hunfold]
              exact Int.toNat_le_toNat (le_max_right _ _)
            have hcur : 0 ≤ currentBlock nh nm := le_max_left _ _
            simp only [mkEmergencySlot]
            omega
          · rw [if_neg hfree] at hbeq
            simp at hbeq
  · rw [handleEmergency]
    cases hspec : gdSpec db tenant with
    | none =>
      constructor
      · intro _ spec hcon
        simp at hcon
      · intro _
        rfl
    | some spec =>
      show (if (gdDoctors db tenant spec.spec_id).isEmpty = true
          then (none : Option EmergencySlot)
          else (List.range 4).findSome?
            (emergScanDay db (gdDoctors db tenant spec.spec_id) today nh nm)) =
          none ↔ _
      by_cases hde : (gdDoctors db tenant spec.spec_id).isEmpty = true
      · rw [if_pos hde]
        have hnil : gdDoctors db tenant spec.spec_id = [] := List.isEmpty_iff.1 hde
        constructor
        · intro _ spec' hspec' hne
          have hsp : spec' = spec := (Option.some.inj hspec').symm
          exact absurd (by rw [hsp]; exact hnil) hne
        · intro _
          rfl
      · rw [if_neg hde]
        constructor
        · intro h spec' hspec' hne off hoff4 doc hdoc t ht room hroom b hb1 hb2
          have hspeq : spec' = spec := (Option.some.inj hspec').symm
          subst hspeq
          have hday := List.findSome?_eq_none_iff.1 h off (List.mem_range.2 hoff4)
          simp only [emergScanDay] at hday
          have hdoc2 := List.findSome?_eq_none_iff.1 hday doc hdoc
          have ht2 := List.findSome?_eq_none_iff.1 hdoc2 t ht
          rw [emergScanTemplate, hroom] at ht2
          have ht3 : (List.range' (emergStartBlock t (off == 0) nh nm)
              (emergEndBlock t - emergStartBlock t (off == 0) nh nm)).findSome?
              (fun b => if emergFreeAt db doc.doctor_id room.room_id (today + off) b
                then some (mkEmergencySlot doc room t.clinic_id (today + off) b)
                else none) = none := ht2
          have hbmem : b ∈ List.range' (emergStartBlock t (off == 0) nh nm)
              (emergEndBlock t - emergStartBlock t (off == 0) nh nm) :=
            List.mem_range'_1.2 ⟨hb1, by omega⟩
          have := List.findSome?_eq_none_iff.1 ht3 b hbmem
          by_cases hfree : emergFreeAt db doc.doctor_id room.room_id (today + off) b = true
          · rw [if_pos hfree] at this
            exact absurd this (by simp)
          · exact Bool.not_eq_true _ ▸ hfree
        · intro h
          apply List.findSome?_eq_none_iff.2
          intro off hoff
          simp only [emergScanDay]
          apply List.findSome?_eq_none_iff.2
          intro doc hdoc
          apply List.findSome?_eq_none_iff.2
          intro t ht
          cases hroom : firstActiveRoom db t.clinic_id with
          | none =>
            rw [emergScanTemplate, hroom]
          | some room =>
            rw [emergScanTemplate, hroom]
            show (List.range' (emergStartBlock t (off == 0) nh nm)
              (emergEndBlock t - emergStartBlock t (off == 0) nh nm)).findSome?
              (fun b => if emergFreeAt db doc.doctor_id room.room_id (today + off) b
                then some (mkEmergencySlot doc room t.clinic_id (today + off) b)
                else none) = none
            apply List.findSome?_eq_none_iff.2
            intro b hb
            obtain ⟨hb1, hb2⟩ := List.mem_range'_1.1 hb
            have hfree := h spec rfl (fun hc => hde (by rw [hc]; rfl)) off
              (List.mem_range.1 hoff) doc hdoc t ht room hroom b hb1 (by omega)
            rw [if_neg (by rw [hfree]; exact Bool.false_ne_true)]

/-- Witness for C5: the scan on the weekend fixture returns a concrete slot
satisfying all the stated properties. -/
theorem C5_emergency_scan_witness :
    handleEmergency weekendEmergDB none 4 0 0 = some weekendSlot ∧
      (4 ≤ weekendSlot.date ∧ weekendSlot.date ≤ 4 + 3 ∧
        emergFreeAt weekendEmergDB weekendSlot.doctor_id weekendSlot.room_id
          weekendSlot.date weekendSlot.time_block = true ∧
        (weekendSlot.date = 4 → currentBlock 0 0 < (weekendSlot.time_block : Int)) ∧
        weekendSlot.duration_minutes = 15 ∧
        weekendSlot.time = blockToTimeMin weekendSlot.time_block ∧
        weekendSlot.type = "EMERGENCY") :=
  ⟨rfl, (C5_emergency_scan weekendEmergDB none 4 0 0).1 weekendSlot rfl⟩

/-! ## Booking service -/

theorem updateFirst_mem (p : CalendarSlot → Bool) (f : CalendarSlot → CalendarSlot) :
    ∀ (cs cs' : List CalendarSlot), updateFirst p f cs = some cs' →
      ∀ s ∈ cs, s ∈ cs' ∨ (p s = true ∧ f s ∈ cs') := by
  intro cs
  induction cs with
  | nil => intro cs' h; simp [updateFirst] at h
  | cons s0 rest ih =>
    intro cs' h s hs
    simp only [updateFirst] at h
    by_cases hp : p s0 = true
    · rw [if_pos hp] at h
      have hcs' : cs' = f s0 :: rest := (Option.some.inj h).symm
      subst hcs'
      rcases List.mem_cons.1 hs with rfl | hs
      · exact Or.inr ⟨hp, List.mem_cons_self _ _⟩
      · exact Or.inl (List.mem_cons_of_mem _ hs)
    · rw [if_neg hp] at h
      cases hrec : updateFirst p f rest with
      | none => rw [hrec] at h; simp at h
      | some rest' =>
        rw [hrec] at h
        have hcs' : cs' = s0 :: rest' := (Option.some.inj (by simpa using h)).symm
        subst hcs'
        rcases List.mem_cons.1 hs with rfl | hs
        · exact Or.inl (List.mem_cons_self _ _)
        · rcases ih rest' hrec s hs with h' | ⟨hps, h'⟩
          · exact Or.inl (List.mem_cons_of_mem _ h')
          · exact Or.inr ⟨hps, List.mem_cons_of_mem _ h'⟩

theorem updateFirst_found (p : CalendarSlot → Bool) (f : CalendarSlot → CalendarSlot) :
    ∀ (cs cs' : List CalendarSlot), updateFirst p f cs = some cs' →
      ∃ s ∈ cs, p s = true ∧ f s ∈ cs' := by
  intro cs
  induction cs with
  | nil => intro cs' h; simp [updateFirst] at h
  | cons s0 rest ih =>
    intro cs' h
    simp only [updateFirst] at h
    by_cases hp : p s0 = true
    · rw [if_pos hp] at h
      have hcs' : cs' = f s0 :: rest := (Option.some.inj h).symm
      subst hcs'
      exact ⟨s0, List.mem_cons_self _ _, hp, List.mem_cons_self _ _⟩
    · rw [if_neg hp] at h
      cases hrec : updateFirst p f rest with
      | none => rw [hrec] at h; simp at h
      | some rest' =>
        rw [hrec] at h
        have hcs' : cs' = s0 :: rest' := (Option.some.inj (by simpa using h)).symm
        subst hcs'
        obtain ⟨s, hs, hps, hfs⟩ := ih rest' hrec
        exact ⟨s, List.mem_cons_of_mem _ hs, hps, List.mem_cons_of_mem _ hfs⟩

theorem upsertSlot_establishes (cs : List CalendarSlot) (tenant : Option Nat)
    (etype : String) (eid d b apptId : Nat) :
    ∃ s ∈ upsertSlot cs tenant etype eid d b apptId,
      bookedRow etype eid d b apptId s := by
  rw [upsertSlot]
  cases hupd : updateFirst
      (fun s => s.entity_type == etype && s.entity_id == eid
        && s.date == d && s.time_block == b)
      (fun s =>
        { s with
          booked := true
          appt_id := some apptId
          tenant_id := match tenant with
            | some t => some t
            | none => s.tenant_id }) cs with
  | none =>
    refine ⟨_, List.mem_append.2 (Or.inr (List.mem_singleton.2 rfl)), ?_⟩
    exact ⟨rfl, rfl, rfl, rfl, rfl, rfl⟩
  | some cs' =>
    obtain ⟨s, -, hps, hfs⟩ := updateFirst_found _ _ cs cs' hupd
    simp only [Bool.and_eq_true, beq_iff_eq] at hps
    obtain ⟨⟨⟨h1, h2⟩, h3⟩, h4⟩ := hps
    exact ⟨_, hfs, h1, h2, h3, h4, rfl, rfl⟩

theorem upsertSlot_preserves (cs : List CalendarSlot) (tenant : Option Nat)
    (etype : String) (eid d b apptId : Nat)
    (etype' : String) (eid' d' b' : Nat)
    (h : ∃ s ∈ cs, bookedRow etype' eid' d' b' apptId s) :
    ∃ s ∈ upsertSlot cs tenant etype eid d b apptId,
      bookedRow etype' eid' d' b' apptId s := by
  obtain ⟨w, hw, hprops⟩ := h
  rw [upsertSlot]
  cases hupd : updateFirst
      (fun s => s.entity_type == etype && s.entity_id == eid
        && s.date == d && s.time_block == b)
      (fun s =>
        { s with
          booked := true
          appt_id := some apptId
          tenant_id := match tenant with
            | some t => some t
            | none => s.tenant_id }) cs with
  | none =>
    exact ⟨w, List.mem_append.2 (Or.inl hw), hprops⟩
  | some cs' =>
    rcases updateFirst_mem _ _ cs cs' hupd w hw with hmem | ⟨-, hmem⟩
    · exact ⟨w, hmem, hprops⟩
    · obtain ⟨p1, p2, p3, p4, -, -⟩ := hprops
      exact ⟨_, hmem, p1, p2, p3, p4, rfl, rfl⟩

theorem foldl_blocks_preserves (tenant : Option Nat) (etype : String)
    (eid d apptId : Nat) (etype' : String) (eid' d' b' : Nat) :
    ∀ (blocks : List Nat) (cs : List CalendarSlot),
      (∃ s ∈ cs, bookedRow etype' eid' d' b' apptId s) →
      ∃ s ∈ blocks.foldl
          (fun cs b => upsertSlot cs tenant etype eid d b apptId) cs,
        bookedRow etype' eid' d' b' apptId s := by
  intro blocks
  induction blocks with
  | nil => intro cs h; exact h
  | cons b0 rest ih =>
    intro cs h
    exact ih _ (upsertSlot_preserves cs tenant etype eid d b0 apptId _ _ _ _ h)

theorem foldl_blocks_establishes (tenant : Option Nat) (etype : String)
    (eid d apptId : Nat) :
    ∀ (blocks : List Nat) (cs : List CalendarSlot), ∀ b ∈ blocks,
      ∃ s ∈ blocks.foldl
          (fun cs b => upsertSlot cs tenant etype eid d b apptId) cs,
        bookedRow etype eid d b apptId s := by
  intro blocks
  induction blocks with
  | nil => intro cs b hb; simp at hb
  | cons b0 rest ih =>
    intro cs b hb
    rcases List.mem_cons.1 hb with rfl | hb
    · exact foldl_blocks_preserves tenant etype eid d apptId etype eid d b rest _
        (upsertSlot_establishes cs tenant etype eid d b apptId)
    · exact ih _ b hb

theorem foldl_entities_preserves (tenant : Option Nat) (d apptId : Nat)
    (blocks : List Nat) (etype' : String) (eid' d' b' : Nat) :
    ∀ (entities : List (String × Nat)) (cs : List CalendarSlot),
      (∃ s ∈ cs, bookedRow etype' eid' d' b' apptId s) →
      ∃ s ∈ entities.foldl (fun cs e =>
          blocks.foldl (fun cs b => upsertSlot cs tenant e.1 e.2 d b apptId) cs) cs,
        bookedRow etype' eid' d' b' apptId s := by
  intro entities
  induction entities with
  | nil => intro cs h; exact h
  | cons e0 rest ih =>
    intro cs h
    exact ih _ (foldl_blocks_preserves tenant e0.1 e0.2 d apptId
      etype' eid' d' b' blocks cs h)

theorem foldl_entities_locks (tenant : Option Nat) (d apptId : Nat)
    (blocks : List Nat) :
    ∀ (entities : List (String × Nat)) (cs : List CalendarSlot),
      ∀ e ∈ entities, ∀ b ∈ blocks,
        ∃ s ∈ entities.foldl (fun cs e =>
            blocks.foldl (fun cs b => upsertSlot cs tenant e.1 e.2 d b apptId) cs) cs,
          bookedRow e.1 e.2 d b apptId s := by
  intro entities
  induction entities with
  | nil => intro cs e he; simp at he
  | cons e0 rest ih =>
    intro cs e he b hb
    rcases List.mem_cons.1 he with rfl | he
    · exact foldl_entities_preserves tenant d apptId blocks e.1 e.2 d b rest _
        (foldl_blocks_establishes tenant e.1 e.2 d apptId blocks cs b hb)
    · exact ih _ e he b hb

/-- C1: `book_appointment` pre-validates every entity/block pair against
booked CalendarSlots — on any conflict it raises `SlotUnavailable` without
writing a single CalendarSlot; otherwise it flushes exactly one SCHEDULED
appointment and upserts a booked CalendarSlot carrying the new appointment
id for every entity (doctor, room, optional staff) and every block in
`[start_block, start_block + ceil(duration/15))`. -/
theorem C1_book_appointment (db : DB) (slot : BookSlot) (patient_id : Nat)
    (proc_id : Option Nat) (tenant : Option Nat) (newApptId : Nat) :
    ((∃ e ∈ bookEntities slot, conflictRow db.calendar_slots e slot.date
        slot.time_block (blocksNeeded slot.duration_minutes) = true) →
      ∃ db', bookAppointment db slot patient_id proc_id tenant newApptId =
          Except.error ("SlotUnavailable", db') ∧
        db'.calendar_slots = db.calendar_slots) ∧
      ((∀ e ∈ bookEntities slot, conflictRow db.calendar_slots e slot.date
          slot.time_block (blocksNeeded slot.duration_minutes) = false) →
        ∃ db', bookAppointment db slot patient_id proc_id tenant newApptId =
            Except.ok db' ∧
          (∃ appt, db'.appointments = db.appointments ++ [appt] ∧
            appt.status = "SCHEDULED" ∧ appt.appt_id = newApptId ∧
            appt.patient_id = patient_id ∧ appt.doctor_id = slot.doctor_id ∧
            appt.room_id = slot.room_id ∧ appt.staff_id = slot.staff_id) ∧
          (∀ e ∈ bookEntities slot, ∀ b, slot.time_block ≤ b →
            b < slot.time_block + blocksNeeded slot.duration_minutes →
            ∃ s ∈ db'.calendar_slots,
              bookedRow e.1 e.2 slot.date b newApptId s)) := by
  constructor
  · rintro ⟨e, he, hconf⟩
    have hany : (bookEntities slot).any (fun e => conflictRow db.calendar_slots e
        slot.date slot.time_block (blocksNeeded slot.duration_minutes)) = true :=
      List.any_eq_true.2 ⟨e, he, hconf⟩
    simp only [bookAppointment]
    rw [if_pos hany]
    exact ⟨_, rfl, rfl⟩
  · intro hall
    have hany : (bookEntities slot).any (fun e => conflictRow db.calendar_slots e
        slot.date slot.time_block (blocksNeeded slot.duration_minutes)) = false := by
      rw [List.any_eq_false]
      intro e he
      rw [hall e he]
      exact Bool.false_ne_true
    simp only [bookAppointment]
    rw [if_neg (by rw [hany]; exact Bool.false_ne_true)]
    refine ⟨_, rfl, ⟨_, rfl, rfl, rfl, rfl, rfl, rfl, rfl⟩, ?_⟩
    intro e he b hb1 hb2
    have hbmem : b ∈ List.range' slot.time_block (blocksNeeded slot.duration_minutes) :=
      List.mem_range'_1.2 ⟨hb1, hb2⟩
    exact foldl_entities_locks tenant slot.date newApptId _ (bookEntities slot)
      db.calendar_slots e he b hbmem

/-- Witness for C1: booking a one-block slot into an empty database. -/
theorem C1_book_appointment_witness :
    (∀ e ∈ bookEntities bookSlotA,
      conflictRow ({} : DB).calendar_slots e bookSlotA.date bookSlotA.time_block
        (blocksNeeded bookSlotA.duration_minutes) = false) ∧
    ∃ db', bookAppointment {} bookSlotA 7 none none 99 = Except.ok db' ∧
      (∃ appt, db'.appointments = ({} : DB).appointments ++ [appt] ∧
        appt.status = "SCHEDULED" ∧ appt.appt_id = 99 ∧
        appt.patient_id = 7 ∧ appt.doctor_id = bookSlotA.doctor_id ∧
        appt.room_id = bookSlotA.room_id ∧ appt.staff_id = bookSlotA.staff_id) ∧
      (∀ e ∈ bookEntities bookSlotA,
        ∀ b, bookSlotA.time_block ≤ b →
          b < bookSlotA.time_block + blocksNeeded bookSlotA.duration_minutes →
        ∃ s ∈ db'.calendar_slots, bookedRow e.1 e.2 bookSlotA.date b 99 s) := by
  have hall : ∀ e ∈ bookEntities bookSlotA,
      conflictRow ({} : DB).calendar_slots e bookSlotA.date bookSlotA.time_block
        (blocksNeeded bookSlotA.duration_minutes) = false := by
    intro e he
    rfl
  exact ⟨hall, (C1_book_appointment {} bookSlotA 7 none none 99).2 hall⟩

end DA
